import Mathlib

/-!
OPT3001 ambient light sensor driver: a shallow embedding of `src/include/opt3001.h` and
`src/src/opt3001.cpp`.

* The driver object is the structure `opt3001` (its two data members).
* The `TwoWire` bus object of the Arduino core is outside the repository.  Every call the
  driver makes on it is appended to a trace of `WireEvent`s, and the values the bus hands back
  (`endTransmission`, `available`, `read`) are given by a `TwoWire` record of functions of
  the trace so far, the call being answered included.  Any deterministic bus is such a record.
* The error numbers of `<errno.h>` are outside the repository too: they are the parameter
  `Errno`.
* `uint16_t` values are naturals below `2 ^ 16`.  The operands of `&`, `|`, `~` and `<<` are
  promoted to `int` in C and the result is stored back into a `uint16_t`, which keeps its low
  16 bits; since each of these operators computes bit `i` of its result from bits `≤ i` of its
  operands, the embedding computes directly on 16-bit words (`c_not`, `u16`, `toU16`).
-/

/-- The error numbers `EINVAL` and `EIO` of the C library header `<errno.h>`. -/
structure Errno where
  EINVAL : Int
  EIO : Int
  deriving DecidableEq, Repr

/-- Registers of the chip (`enum opt3001_register`). -/
inductive opt3001_register where
  | OPT3001_REGISTER_RESULT
  | OPT3001_REGISTER_CONFIG
  | OPT3001_REGISTER_LIMITL
  | OPT3001_REGISTER_LIMITH
  | OPT3001_REGISTER_MANUID
  | OPT3001_REGISTER_DEVIID
  deriving DecidableEq, Repr

/-- The enumerator values of `enum opt3001_register`. -/
def opt3001_register.toNat : opt3001_register → Nat
  | .OPT3001_REGISTER_RESULT => 0x00
  | .OPT3001_REGISTER_CONFIG => 0x01
  | .OPT3001_REGISTER_LIMITL => 0x02
  | .OPT3001_REGISTER_LIMITH => 0x03
  | .OPT3001_REGISTER_MANUID => 0x7E
  | .OPT3001_REGISTER_DEVIID => 0x7F

/-- Conversion time (`enum opt3001_conversion_time`). -/
inductive opt3001_conversion_time where
  | OPT3001_CONVERSION_TIME_100MS
  | OPT3001_CONVERSION_TIME_800MS
  deriving DecidableEq, Repr

/-- The member functions of `TwoWire` that the driver calls, with their arguments. -/
inductive WireCall where
  | beginTransmission (address : Nat)
  | write (data : Nat)
  | endTransmission (sendStop : Bool)
  | requestFrom (address quantity sendStop : Nat)
  | available
  | read
  deriving DecidableEq, Repr

/-- One call on a bus object: `wire` identifies the `TwoWire` object (the pointer held in
`m_i2c_library`), `call` is the member function called. -/
structure WireEvent where
  wire : Nat
  call : WireCall
  deriving DecidableEq, Repr

/-- The values handed back by the bus, as functions of the trace of calls made so far (the
call being answered is its last element): the `uint8_t` status of `endTransmission`, the
`int` count of `available` and the `int` of `read` (a byte, or `-1` when nothing is left). -/
structure TwoWire where
  endTransmission : List WireEvent → Nat
  available : List WireEvent → Int
  read : List WireEvent → Int

/-- The data members of `class opt3001`: `m_i2c_library` is `none` for `NULL`. -/
structure opt3001 where
  m_i2c_library : Option Nat
  m_i2c_address : Nat
  deriving DecidableEq, Repr

/-- Result of a driver function that only returns a status: the `int` returned and the trace
of bus calls after it. -/
structure Outcome where
  res : Int
  trace : List WireEvent
  deriving DecidableEq, Repr

/-- Result of `register_read`: the `int` returned, the content of `*reg_content` after the
call, and the trace of bus calls after it. -/
structure ReadOutcome where
  res : Int
  reg_content : Nat
  trace : List WireEvent
  deriving DecidableEq, Repr

/-- Result of `setup`: the `int` returned, the driver object and the trace after the call. -/
structure SetupOutcome where
  res : Int
  self : opt3001
  trace : List WireEvent
  deriving DecidableEq, Repr

/-- Result of `lux_read`: the `int` returned, the content of `*lux` after the call, and the
trace of bus calls after it. -/
structure LuxOutcome (F : Type) where
  res : Int
  lux : F
  trace : List WireEvent

/-- Storing a natural into a `uint16_t`: its low 16 bits. -/
def u16 (x : Nat) : Nat := x % 65536

/-- Storing an `int` into a `uint16_t`: its residue modulo `2 ^ 16`. -/
def toU16 (x : Int) : Nat := (x % 65536).toNat

/-- The low 16 bits of `~x`. -/
def c_not (x : Nat) : Nat := 0xFFFF ^^^ u16 x

/-- The trace `t` extended by one call on the bus object `lib`. -/
def wireCall (t : List WireEvent) (lib : Nat) (c : WireCall) : List WireEvent :=
  t ++ [⟨lib, c⟩]

/-- Embedding of `opt3001::register_read`; `reg_content` is the content of the output
variable before the call. -/
def opt3001.register_read (e : Errno) (w : TwoWire) (self : opt3001) (t : List WireEvent)
    (reg_address : opt3001_register) (reg_content : Nat) : ReadOutcome :=
  match self.m_i2c_library with
  | none => ⟨-e.EINVAL, reg_content, t⟩
  | some lib =>
    let t := wireCall t lib (.beginTransmission self.m_i2c_address)
    let t := wireCall t lib (.write reg_address.toNat)
    let t := wireCall t lib (.endTransmission false)
    let res := w.endTransmission t
    if res ≠ 0 then ⟨-e.EIO, reg_content, t⟩
    else
      let t := wireCall t lib (.requestFrom self.m_i2c_address 2 1)
      let t := wireCall t lib .available
      let res := w.available t
      if res = 0 then ⟨-e.EIO, reg_content, t⟩
      else
        let t := wireCall t lib .read
        let reg_content := toU16 (w.read t)
        let reg_content := u16 (reg_content <<< 8)
        let t := wireCall t lib .read
        let reg_content := u16 (reg_content ||| toU16 (w.read t))
        ⟨0, reg_content, t⟩

/-- Embedding of `opt3001::register_write`. -/
def opt3001.register_write (e : Errno) (w : TwoWire) (self : opt3001) (t : List WireEvent)
    (reg_address : opt3001_register) (reg_content : Nat) : Outcome :=
  match self.m_i2c_library with
  | none => ⟨-e.EINVAL, t⟩
  | some lib =>
    let t := wireCall t lib (.beginTransmission self.m_i2c_address)
    let t := wireCall t lib (.write reg_address.toNat)
    let t := wireCall t lib (.write ((reg_content >>> 8) % 256))
    let t := wireCall t lib (.write ((reg_content >>> 0) % 256))
    let t := wireCall t lib (.endTransmission true)
    let res := w.endTransmission t
    if res ≠ 0 then ⟨-e.EIO, t⟩
    else ⟨0, t⟩

/-- Embedding of `opt3001::setup`; `i2c_library` identifies the `TwoWire` object passed by
reference. -/
def opt3001.setup (e : Errno) (self : opt3001) (t : List WireEvent)
    (i2c_library : Nat) (i2c_address : Nat) : SetupOutcome :=
  if (i2c_address &&& 0b11111100) ≠ 0b01000100 then ⟨-e.EINVAL, self, t⟩
  else
    let self := { self with m_i2c_address := i2c_address }
    let self := { self with m_i2c_library := some i2c_library }
    ⟨0, self, t⟩

/-- Embedding of `opt3001::detect`. -/
def opt3001.detect (e : Errno) (w : TwoWire) (self : opt3001) (t : List WireEvent) : Outcome :=
  let r := self.register_read e w t .OPT3001_REGISTER_MANUID 0x0000
  if r.res < 0 then ⟨-e.EIO, r.trace⟩
  else if r.reg_content ≠ 0x5449 then ⟨-1, r.trace⟩
  else
    let r := self.register_read e w r.trace .OPT3001_REGISTER_DEVIID 0x0000
    if r.res < 0 then ⟨-e.EIO, r.trace⟩
    else if r.reg_content ≠ 0x3001 then ⟨-1, r.trace⟩
    else ⟨0, r.trace⟩

/-- The four read-modify-write statements of `opt3001::config_set` on `reg_config`. -/
def config_set_value (ct : opt3001_conversion_time) (reg_config : Nat) : Nat :=
  let reg_config := u16 (reg_config &&& c_not (0b1111 <<< 12))
  let reg_config := u16 (reg_config ||| (0b1100 <<< 12))
  let reg_config := u16 (reg_config &&& c_not (0b1 <<< 11))
  let reg_config :=
    u16 (reg_config ||| (if ct = .OPT3001_CONVERSION_TIME_800MS then 0b1 else 0b0))
  reg_config

/-- Embedding of `opt3001::config_set`; `reg_config` is the indeterminate initial content
of the local variable of that name. -/
def opt3001.config_set (e : Errno) (w : TwoWire) (self : opt3001) (t : List WireEvent)
    (ct : opt3001_conversion_time) (reg_config : Nat) : Outcome :=
  let r := self.register_read e w t .OPT3001_REGISTER_CONFIG reg_config
  if r.res < 0 then ⟨-e.EIO, r.trace⟩
  else
    let r2 := self.register_write e w r.trace .OPT3001_REGISTER_CONFIG
      (config_set_value ct r.reg_content)
    if r2.res < 0 then ⟨-e.EIO, r2.trace⟩
    else ⟨0, r2.trace⟩

/-- The two read-modify-write statements of `opt3001::conversion_continuous_enable`. -/
def continuous_enable_value (reg_config : Nat) : Nat :=
  let reg_config := u16 (reg_config &&& c_not (0b11 <<< 9))
  let reg_config := u16 (reg_config ||| (0b11 <<< 9))
  reg_config

/-- The two read-modify-write statements of `opt3001::conversion_continuous_disable`. -/
def continuous_disable_value (reg_config : Nat) : Nat :=
  let reg_config := u16 (reg_config &&& c_not (0b11 <<< 9))
  let reg_config := u16 (reg_config ||| (0b00 <<< 9))
  reg_config

/-- The two read-modify-write statements of `opt3001::conversion_singleshot_trigger`. -/
def singleshot_trigger_value (reg_config : Nat) : Nat :=
  let reg_config := u16 (reg_config &&& c_not (0b11 <<< 9))
  let reg_config := u16 (reg_config ||| (0b01 <<< 9))
  reg_config

/-- Embedding of `opt3001::conversion_continuous_enable`; `reg_config` is the indeterminate
initial content of the local variable of that name. -/
def opt3001.conversion_continuous_enable (e : Errno) (w : TwoWire) (self : opt3001)
    (t : List WireEvent) (reg_config : Nat) : Outcome :=
  let r := self.register_read e w t .OPT3001_REGISTER_CONFIG reg_config
  if r.res < 0 then ⟨-e.EIO, r.trace⟩
  else
    let r2 := self.register_write e w r.trace .OPT3001_REGISTER_CONFIG
      (continuous_enable_value r.reg_content)
    if r2.res < 0 then ⟨-e.EIO, r2.trace⟩
    else ⟨0, r2.trace⟩

/-- Embedding of `opt3001::conversion_continuous_disable`; `reg_config` is the indeterminate
initial content of the local variable of that name. -/
def opt3001.conversion_continuous_disable (e : Errno) (w : TwoWire) (self : opt3001)
    (t : List WireEvent) (reg_config : Nat) : Outcome :=
  let r := self.register_read e w t .OPT3001_REGISTER_CONFIG reg_config
  if r.res < 0 then ⟨-e.EIO, r.trace⟩
  else
    let r2 := self.register_write e w r.trace .OPT3001_REGISTER_CONFIG
      (continuous_disable_value r.reg_content)
    if r2.res < 0 then ⟨-e.EIO, r2.trace⟩
    else ⟨0, r2.trace⟩

/-- Embedding of `opt3001::conversion_singleshot_trigger`; `reg_config` is the indeterminate
initial content of the local variable of that name. -/
def opt3001.conversion_singleshot_trigger (e : Errno) (w : TwoWire) (self : opt3001)
    (t : List WireEvent) (reg_config : Nat) : Outcome :=
  let r := self.register_read e w t .OPT3001_REGISTER_CONFIG reg_config
  if r.res < 0 then ⟨-e.EIO, r.trace⟩
  else
    let r2 := self.register_write e w r.trace .OPT3001_REGISTER_CONFIG
      (singleshot_trigger_value r.reg_content)
    if r2.res < 0 then ⟨-e.EIO, r2.trace⟩
    else ⟨0, r2.trace⟩

/-- Embedding of `opt3001::lux_read`.  The floating-point evaluation of
`mantissa * (0.01 * pow(2, exponent))` and its conversion to `float` is the parameter
`fmul`, applied to `mantissa` and `exponent`; `lux` is the content of `*lux` before the
call. -/
def opt3001.lux_read {F : Type} (e : Errno) (w : TwoWire) (self : opt3001)
    (t : List WireEvent) (fmul : Nat → Nat → F) (lux : F) : LuxOutcome F :=
  let r := self.register_read e w t .OPT3001_REGISTER_RESULT 0x0000
  if r.res < 0 then ⟨-e.EIO, lux, r.trace⟩
  else
    let mantissa := u16 (r.reg_content &&& 0x0FFF)
    let exponent := u16 ((r.reg_content &&& 0xF000) >>> 12)
    ⟨0, fmul mantissa exponent, r.trace⟩

/-! ## Definitions used to state and to test the properties -/

/-- The read-modify-write body that `config_set` and the three conversion-mode functions
have in common; they differ in the statements `f` applied to `reg_config` only. -/
def opt3001.config_update (e : Errno) (w : TwoWire) (self : opt3001) (t : List WireEvent)
    (f : Nat → Nat) (reg_config : Nat) : Outcome :=
  let r := self.register_read e w t .OPT3001_REGISTER_CONFIG reg_config
  if r.res < 0 then ⟨-e.EIO, r.trace⟩
  else
    let r2 := self.register_write e w r.trace .OPT3001_REGISTER_CONFIG (f r.reg_content)
    if r2.res < 0 then ⟨-e.EIO, r2.trace⟩
    else ⟨0, r2.trace⟩

/-- The bus calls of one write of the 16-bit word `v` to the CONFIG register (address
`0x01`) of the chip at bus address `addr`, on the bus object `lib`: the register address,
the high byte and the low byte of `v` in one transmission that ends with a stop. -/
def configWriteCalls (lib addr v : Nat) : List WireEvent :=
  [⟨lib, .beginTransmission addr⟩, ⟨lib, .write 0x01⟩, ⟨lib, .write ((v >>> 8) % 256)⟩,
    ⟨lib, .write (v % 256)⟩, ⟨lib, .endTransmission true⟩]

/-- The bus calls of `register_read` up to and including its call of `available`. -/
def readRequestCalls (lib addr : Nat) (reg_address : opt3001_register) : List WireEvent :=
  [⟨lib, .beginTransmission addr⟩, ⟨lib, .write reg_address.toNat⟩,
    ⟨lib, .endTransmission false⟩, ⟨lib, .requestFrom addr 2 1⟩, ⟨lib, .available⟩]

/-- A bus for tests: every `endTransmission` returns `status`, every `available` returns
`avail`, and the `n`-th call of `read` in the trace returns the `n`-th element of `bytes`,
or `-1` past its end. -/
def scriptedWire (status : Nat) (avail : Int) (bytes : List Int) : TwoWire where
  endTransmission := fun _ => status
  available := fun _ => avail
  read := fun t => bytes.getD ((t.filter (fun ev => ev.call = .read)).length - 1) (-1)

/-- Error numbers of a C library with `EINVAL = 22` and `EIO = 5`. -/
def errno_sample : Errno := ⟨22, 5⟩

/-- A driver bound to the bus object `7` at address `0x44`. -/
def bound_sample : opt3001 := ⟨some 7, 0x44⟩

/-- A driver as constructed, never bound: `m_i2c_library` is `NULL`. -/
def unbound_sample : opt3001 := ⟨none, 0⟩

/-- The bus calls of one complete `register_read`: those up to `available`, then the two
calls of `read`. -/
def readCalls (lib addr : Nat) (reg_address : opt3001_register) : List WireEvent :=
  readRequestCalls lib addr reg_address ++ [⟨lib, .read⟩, ⟨lib, .read⟩]

/-- The bus calls of `register_read` up to and including the `endTransmission` of its
address phase. -/
def readAddressCalls (lib addr : Nat) (reg_address : opt3001_register) : List WireEvent :=
  [⟨lib, .beginTransmission addr⟩, ⟨lib, .write reg_address.toNat⟩,
    ⟨lib, .endTransmission false⟩]

/-- Modelled from the spec: the chip and its registers are remote state, not part of the
repository.  Following sections 4.2 and 4.3 of the spec, a register of the chip changes by
a register write transaction only, that is a transmission holding the register address
byte followed by the high byte and the low byte of the new content; a transmission holding
the register address alone selects the register for the read phase that follows.  `regs`
is the register file, `pending` the bytes of the transmission in progress. -/
structure Chip where
  regs : Nat → Nat
  pending : List Nat

/-- Modelled from the spec: the effect of one bus call on the chip.  The chip takes a
transmission at its end whatever status the bus reports for it. -/
def Chip.step (c : Chip) (ev : WireEvent) : Chip :=
  match ev.call with
  | .beginTransmission _ => { c with pending := [] }
  | .write b => { c with pending := c.pending ++ [b] }
  | .endTransmission _ =>
    match c.pending with
    | [r, hi, lo] =>
      { regs := fun a => if a = r then hi * 256 + lo else c.regs a, pending := [] }
    | _ => { c with pending := [] }
  | .requestFrom _ _ _ => c
  | .available => c
  | .read => c

/-- Modelled from the spec: the chip after a sequence of bus calls. -/
def Chip.run (c : Chip) (evs : List WireEvent) : Chip := evs.foldl Chip.step c

/-- The three conversion-mode functions. -/
inductive ModeOp where
  | continuous_enable
  | continuous_disable
  | singleshot_trigger
  deriving DecidableEq, Repr

/-- The statements that a conversion-mode function applies to `reg_config`. -/
def ModeOp.value : ModeOp → Nat → Nat
  | .continuous_enable => continuous_enable_value
  | .continuous_disable => continuous_disable_value
  | .singleshot_trigger => singleshot_trigger_value

/-- The status rule of a read-modify-write of CONFIG, for the outcome `out` of a function
that reads CONFIG from the trace `t` into a variable of initial content `u` and writes back
`f` of the word read: `out` is a success exactly when the read and the write both return 0,
and it is `-EIO` when the read does not return 0 or the write does not. -/
def ReadWriteStatus (e : Errno) (w : TwoWire) (self : opt3001) (t : List WireEvent)
    (u : Nat) (f : Nat → Nat) (out : Outcome) : Prop :=
  (out.res = 0 ↔
    (self.register_read e w t .OPT3001_REGISTER_CONFIG u).res = 0 ∧
    (self.register_write e w (self.register_read e w t .OPT3001_REGISTER_CONFIG u).trace
      .OPT3001_REGISTER_CONFIG
      (f (self.register_read e w t .OPT3001_REGISTER_CONFIG u).reg_content)).res = 0) ∧
  ((self.register_read e w t .OPT3001_REGISTER_CONFIG u).res ≠ 0 → out.res = -e.EIO) ∧
  ((self.register_read e w t .OPT3001_REGISTER_CONFIG u).res = 0 →
    (self.register_write e w (self.register_read e w t .OPT3001_REGISTER_CONFIG u).trace
      .OPT3001_REGISTER_CONFIG
      (f (self.register_read e w t .OPT3001_REGISTER_CONFIG u).reg_content)).res ≠ 0 →
    out.res = -e.EIO)

/-- The read of CONFIG guards the write, for a function `op` of the initial content of its
local variable `reg_config`: when the read of CONFIG from the trace `t` does not return 0,
`op` makes no bus call after those of the read, and the outcome of `op` (status and bus
calls, the bytes written among them) is the same for every initial content. -/
def ReadGuardsWrite (e : Errno) (w : TwoWire) (self : opt3001) (t : List WireEvent)
    (op : Nat → Outcome) : Prop :=
  (∀ u, (self.register_read e w t .OPT3001_REGISTER_CONFIG u).res ≠ 0 →
    (op u).trace = (self.register_read e w t .OPT3001_REGISTER_CONFIG u).trace) ∧
  (∀ u u', op u = op u')

/-! ## Bits of 16-bit words -/

theorem u16_testBit (x i : Nat) : (u16 x).testBit i = (decide (i < 16) && x.testBit i) := by
  unfold u16
  exact Nat.testBit_mod_two_pow x 16 i

theorem u16_lt (x : Nat) : u16 x < 65536 := Nat.mod_lt _ (by decide)

theorem u16_of_lt {x : Nat} (h : x < 65536) : u16 x = x := Nat.mod_eq_of_lt h

theorem toU16_lt (x : Int) : toU16 x < 65536 := by
  unfold toU16
  omega

theorem toU16_natCast {b : Nat} (h : b < 65536) : toU16 (b : Int) = b := by
  unfold toU16
  omega

theorem c_not_testBit (x i : Nat) :
    (c_not x).testBit i = (decide (i < 16) && !x.testBit i) := by
  unfold c_not
  have h : (0xFFFF : Nat) = 2 ^ 16 - 1 := by norm_num
  rw [Nat.testBit_xor, h, Nat.testBit_two_pow_sub_one, u16_testBit]
  cases x.testBit i <;> cases decide (i < 16) <;> rfl

/-- A word below `2 ^ 16` has no bit at position 16 or above. -/
theorem testBit_eq_false_of_lt_65536 {x i : Nat} (hx : x < 65536) (hi : 16 ≤ i) :
    x.testBit i = false := by
  apply Nat.testBit_lt_two_pow
  calc x < 2 ^ 16 := hx
    _ ≤ 2 ^ i := Nat.pow_le_pow_right (by decide) hi

/-- Two words that agree on the bits `lo ≤ i < lo + len` have the same field there. -/
theorem field_eq_of_testBit (v c lo len : Nat)
    (h : ∀ i, lo ≤ i → i < lo + len → v.testBit i = c.testBit i) :
    (v >>> lo) % 2 ^ len = (c >>> lo) % 2 ^ len := by
  apply Nat.eq_of_testBit_eq
  intro j
  rw [Nat.testBit_mod_two_pow, Nat.testBit_mod_two_pow, Nat.testBit_shiftRight,
    Nat.testBit_shiftRight]
  by_cases hj : j < len
  · rw [h (lo + j) (by omega) (by omega)]
  · simp [hj]

/-- Bit `i` of the word computed by the statements of `config_set`. -/
theorem config_set_value_testBit (ct : opt3001_conversion_time) (c i : Nat) :
    (config_set_value ct c).testBit i =
      (decide (i < 16) &&
        (((c.testBit i && !(0xF000 : Nat).testBit i) || (0xC000 : Nat).testBit i)
            && !(0x800 : Nat).testBit i
          || (if ct = .OPT3001_CONVERSION_TIME_800MS then 1 else 0 : Nat).testBit i)) := by
  simp only [config_set_value, u16_testBit, c_not_testBit, Nat.testBit_and, Nat.testBit_or,
    show (0b1111 <<< 12 : Nat) = 0xF000 from rfl, show (0b1100 <<< 12 : Nat) = 0xC000 from rfl,
    show (0b1 <<< 11 : Nat) = 0x800 from rfl]
  cases decide (i < 16) <;> simp

/-- Bit `i` of the word computed by the statements of a conversion-mode function that
clears the mode field and then sets the bits of `m`. -/
theorem mode_value_testBit (m c i : Nat) :
    (u16 (u16 (c &&& c_not (0b11 <<< 9)) ||| m)).testBit i =
      (decide (i < 16) && ((c.testBit i && !(0x600 : Nat).testBit i) || m.testBit i)) := by
  simp only [u16_testBit, c_not_testBit, Nat.testBit_and, Nat.testBit_or,
    show (0b11 <<< 9 : Nat) = 0x600 from rfl]
  cases decide (i < 16) <;> simp

theorem config_set_value_lt (ct : opt3001_conversion_time) (c : Nat) :
    config_set_value ct c < 65536 := u16_lt _

theorem continuous_enable_value_lt (c : Nat) : continuous_enable_value c < 65536 := u16_lt _

theorem continuous_disable_value_lt (c : Nat) : continuous_disable_value c < 65536 := u16_lt _

theorem singleshot_trigger_value_lt (c : Nat) : singleshot_trigger_value c < 65536 := u16_lt _

/-- What `config_set` makes of a 16-bit word `c` for the 100 ms conversion time. -/
theorem config_set_value_100ms_fields (c : Nat) :
    (config_set_value .OPT3001_CONVERSION_TIME_100MS c >>> 12) % 16 = 0b1100 ∧
    (config_set_value .OPT3001_CONVERSION_TIME_100MS c >>> 11) % 2 = 0 ∧
    (config_set_value .OPT3001_CONVERSION_TIME_100MS c >>> 9) % 4 = (c >>> 9) % 4 ∧
    config_set_value .OPT3001_CONVERSION_TIME_100MS c % 512 = c % 512 := by
  refine ⟨?_, ?_, ?_, ?_⟩
  · have h := field_eq_of_testBit (config_set_value .OPT3001_CONVERSION_TIME_100MS c)
      0xC000 12 4 (by
        intro i h1 h2
        rw [config_set_value_testBit]
        interval_cases i <;> (generalize c.testBit _ = b; cases b <;> decide))
    simpa using h
  · have h := field_eq_of_testBit (config_set_value .OPT3001_CONVERSION_TIME_100MS c)
      0 11 1 (by
        intro i h1 h2
        rw [config_set_value_testBit]
        interval_cases i
        generalize c.testBit _ = b
        cases b <;> decide)
    simpa using h
  · exact field_eq_of_testBit _ c 9 2 (by
      intro i h1 h2
      rw [config_set_value_testBit]
      interval_cases i <;> (generalize c.testBit _ = b; cases b <;> decide))
  · have h := field_eq_of_testBit (config_set_value .OPT3001_CONVERSION_TIME_100MS c)
      c 0 9 (by
        intro i h1 h2
        rw [config_set_value_testBit]
        interval_cases i <;> (generalize c.testBit _ = b; cases b <;> decide))
    simpa using h

/-- What `config_set` makes of a 16-bit word `c` for the 800 ms conversion time: bit 11 is
cleared and bit 0 is set. -/
theorem config_set_value_800ms_fields (c : Nat) :
    (config_set_value .OPT3001_CONVERSION_TIME_800MS c >>> 12) % 16 = 0b1100 ∧
    (config_set_value .OPT3001_CONVERSION_TIME_800MS c >>> 11) % 2 = 0 ∧
    (config_set_value .OPT3001_CONVERSION_TIME_800MS c >>> 1) % 1024 = (c >>> 1) % 1024 ∧
    config_set_value .OPT3001_CONVERSION_TIME_800MS c % 2 = 1 := by
  refine ⟨?_, ?_, ?_, ?_⟩
  · have h := field_eq_of_testBit (config_set_value .OPT3001_CONVERSION_TIME_800MS c)
      0xC000 12 4 (by
        intro i h1 h2
        rw [config_set_value_testBit]
        interval_cases i <;> (generalize c.testBit _ = b; cases b <;> decide))
    simpa using h
  · have h := field_eq_of_testBit (config_set_value .OPT3001_CONVERSION_TIME_800MS c)
      0 11 1 (by
        intro i h1 h2
        rw [config_set_value_testBit]
        interval_cases i
        generalize c.testBit _ = b
        cases b <;> decide)
    simpa using h
  · exact field_eq_of_testBit _ c 1 10 (by
      intro i h1 h2
      rw [config_set_value_testBit]
      interval_cases i <;> (generalize c.testBit _ = b; cases b <;> decide))
  · have h := field_eq_of_testBit (config_set_value .OPT3001_CONVERSION_TIME_800MS c)
      1 0 1 (by
        intro i h1 h2
        rw [config_set_value_testBit]
        interval_cases i
        generalize c.testBit _ = b
        cases b <;> decide)
    simpa using h

/-! ## The register primitives on a bound driver -/

/-- On a bound driver `register_write` makes its five bus calls and returns according to
the status of `endTransmission`. -/
theorem register_write_bound (e : Errno) (w : TwoWire) (self : opt3001) (t : List WireEvent)
    (reg_address : opt3001_register) (v lib : Nat) (hb : self.m_i2c_library = some lib) :
    self.register_write e w t reg_address v =
      ⟨if w.endTransmission (t ++ [⟨lib, .beginTransmission self.m_i2c_address⟩,
            ⟨lib, .write reg_address.toNat⟩, ⟨lib, .write ((v >>> 8) % 256)⟩,
            ⟨lib, .write (v % 256)⟩, ⟨lib, .endTransmission true⟩]) ≠ 0
          then -e.EIO else 0,
        t ++ [⟨lib, .beginTransmission self.m_i2c_address⟩,
            ⟨lib, .write reg_address.toNat⟩, ⟨lib, .write ((v >>> 8) % 256)⟩,
            ⟨lib, .write (v % 256)⟩, ⟨lib, .endTransmission true⟩]⟩ := by
  simp only [opt3001.register_write, hb, wireCall, List.append_assoc, List.cons_append,
    List.nil_append, Nat.shiftRight_zero]
  split_ifs <;> rfl

/-- On a bound driver `register_read` returns `0` or `-EIO`. -/
theorem register_read_bound_res (e : Errno) (w : TwoWire) (self : opt3001)
    (t : List WireEvent) (reg_address : opt3001_register) (u lib : Nat)
    (hb : self.m_i2c_library = some lib) :
    (self.register_read e w t reg_address u).res = 0 ∨
      (self.register_read e w t reg_address u).res = -e.EIO := by
  simp only [opt3001.register_read, hb]
  split_ifs <;> simp

/-- The result of `register_read` is negative exactly when it is not `0`, on a bound driver
and with a positive `EIO`. -/
theorem register_read_bound_neg_iff (e : Errno) (w : TwoWire) (self : opt3001)
    (t : List WireEvent) (reg_address : opt3001_register) (u lib : Nat)
    (hb : self.m_i2c_library = some lib) (hio : 0 < e.EIO) :
    (self.register_read e w t reg_address u).res < 0 ↔
      (self.register_read e w t reg_address u).res ≠ 0 := by
  rcases register_read_bound_res e w self t reg_address u lib hb with h | h <;> rw [h] <;>
    constructor <;> intro h' <;> omega

/-- A successful `register_read` on a bound driver outputs a 16-bit word. -/
theorem register_read_bound_lt (e : Errno) (w : TwoWire) (self : opt3001)
    (t : List WireEvent) (reg_address : opt3001_register) (u lib : Nat)
    (hb : self.m_i2c_library = some lib) (hio : 0 < e.EIO)
    (hok : (self.register_read e w t reg_address u).res = 0) :
    (self.register_read e w t reg_address u).reg_content < 65536 := by
  simp only [opt3001.register_read, hb] at hok ⊢
  split_ifs at hok ⊢
  · simp at hok; omega
  · simp at hok; omega
  · exact u16_lt _

/-- A successful read-modify-write of CONFIG on a bound driver: the read succeeded and the
calls that follow it are those of one write of `f` of the word read. -/
theorem config_update_success (e : Errno) (w : TwoWire) (self : opt3001)
    (t : List WireEvent) (f : Nat → Nat) (u lib : Nat)
    (hb : self.m_i2c_library = some lib) (hio : 0 < e.EIO)
    (hok : (self.config_update e w t f u).res = 0) :
    (self.register_read e w t .OPT3001_REGISTER_CONFIG u).res = 0 ∧
    (self.config_update e w t f u).trace =
      (self.register_read e w t .OPT3001_REGISTER_CONFIG u).trace ++
        configWriteCalls lib self.m_i2c_address
          (f (self.register_read e w t .OPT3001_REGISTER_CONFIG u).reg_content) := by
  have hneg := register_read_bound_neg_iff e w self t .OPT3001_REGISTER_CONFIG u lib hb hio
  simp only [opt3001.config_update] at hok ⊢
  by_cases hr : (self.register_read e w t .OPT3001_REGISTER_CONFIG u).res < 0
  · rw [if_pos hr] at hok
    simp at hok
    omega
  · rw [if_neg hr] at hok ⊢
    refine ⟨by_contra fun h => hr (hneg.mpr h), ?_⟩
    rw [register_write_bound e w self _ _ _ lib hb]
    simp only [configWriteCalls, opt3001_register.toNat]
    split_ifs <;> rfl

theorem config_set_eq_config_update (e : Errno) (w : TwoWire) (self : opt3001)
    (t : List WireEvent) (ct : opt3001_conversion_time) (u : Nat) :
    self.config_set e w t ct u = self.config_update e w t (config_set_value ct) u := rfl

theorem continuous_enable_eq_config_update (e : Errno) (w : TwoWire) (self : opt3001)
    (t : List WireEvent) (u : Nat) :
    self.conversion_continuous_enable e w t u =
      self.config_update e w t continuous_enable_value u := rfl

theorem continuous_disable_eq_config_update (e : Errno) (w : TwoWire) (self : opt3001)
    (t : List WireEvent) (u : Nat) :
    self.conversion_continuous_disable e w t u =
      self.config_update e w t continuous_disable_value u := rfl

theorem singleshot_trigger_eq_config_update (e : Errno) (w : TwoWire) (self : opt3001)
    (t : List WireEvent) (u : Nat) :
    self.conversion_singleshot_trigger e w t u =
      self.config_update e w t singleshot_trigger_value u := rfl

theorem continuous_enable_value_eq (c : Nat) :
    continuous_enable_value c = u16 (u16 (c &&& c_not (0b11 <<< 9)) ||| 0x600) := rfl

theorem continuous_disable_value_eq (c : Nat) :
    continuous_disable_value c = u16 (u16 (c &&& c_not (0b11 <<< 9)) ||| 0) := rfl

theorem singleshot_trigger_value_eq (c : Nat) :
    singleshot_trigger_value c = u16 (u16 (c &&& c_not (0b11 <<< 9)) ||| 0x200) := rfl

/-- The mode field written by a conversion-mode function is the field of `m`. -/
theorem mode_value_field (m c : Nat) (hm : m = 0x600 ∨ m = 0 ∨ m = 0x200) :
    (u16 (u16 (c &&& c_not (0b11 <<< 9)) ||| m) >>> 9) % 4 = (m >>> 9) % 4 := by
  apply field_eq_of_testBit _ m 9 2
  intro i h1 h2
  rw [mode_value_testBit]
  rcases hm with rfl | rfl | rfl <;> interval_cases i <;>
    (generalize c.testBit _ = b; cases b <;> decide)

/-- A conversion-mode function leaves every bit outside the mode field as it was. -/
theorem mode_value_other_bits (m c : Nat) (hm : m = 0x600 ∨ m = 0 ∨ m = 0x200)
    (hc : c < 65536) (i : Nat) (h9 : i ≠ 9) (h10 : i ≠ 10) :
    (u16 (u16 (c &&& c_not (0b11 <<< 9)) ||| m)).testBit i = c.testBit i := by
  rw [mode_value_testBit]
  by_cases hi : i < 16
  · rcases hm with rfl | rfl | rfl <;> interval_cases i <;>
      first
        | exact absurd rfl h9
        | exact absurd rfl h10
        | (generalize c.testBit _ = b; cases b <;> decide)
  · rw [testBit_eq_false_of_lt_65536 hc (by omega)]
    simp [hi]

/-! ## The claims -/

/-- C1 (evaluation of the code): on a bound driver whose CONFIG register reads `0x0000`,
`config_set` for the 800 ms conversion time succeeds and writes back `0xC001`: bit 11 of the
word written is 0 and bit 0, which was 0 in the word read, is 1. -/
theorem config_set_800ms_writes_bit0 :
    (bound_sample.config_set errno_sample (scriptedWire 0 2 [0x00, 0x00]) []
        .OPT3001_CONVERSION_TIME_800MS 0).res = 0 ∧
    (bound_sample.register_read errno_sample (scriptedWire 0 2 [0x00, 0x00]) []
        .OPT3001_REGISTER_CONFIG 0).reg_content = 0x0000 ∧
    (bound_sample.config_set errno_sample (scriptedWire 0 2 [0x00, 0x00]) []
        .OPT3001_CONVERSION_TIME_800MS 0).trace =
      (bound_sample.register_read errno_sample (scriptedWire 0 2 [0x00, 0x00]) []
        .OPT3001_REGISTER_CONFIG 0).trace ++ configWriteCalls 7 0x44 0xC001 ∧
    (0xC001 >>> 11) % 2 = 0 ∧ 0xC001 % 512 ≠ 0x0000 % 512 := by
  decide

/-- C2: on a bound driver (`EIO` being positive), when `config_set` for the 100 ms
conversion time succeeds, its read of CONFIG succeeded with a 16-bit word `c`, and the
calls that follow the read are one write to CONFIG of a 16-bit word `v` whose bits 15..12
are `1100`, whose bit 11 is 0, and whose bits 10..9 and 8..0 are those of `c`. -/
theorem config_set_100ms_writes_back (e : Errno) (w : TwoWire) (self : opt3001)
    (t : List WireEvent) (u lib : Nat)
    (hb : self.m_i2c_library = some lib) (hio : 0 < e.EIO)
    (hok : (self.config_set e w t .OPT3001_CONVERSION_TIME_100MS u).res = 0) :
    ∃ c v, (self.register_read e w t .OPT3001_REGISTER_CONFIG u).res = 0 ∧
      (self.register_read e w t .OPT3001_REGISTER_CONFIG u).reg_content = c ∧ c < 65536 ∧
      (self.config_set e w t .OPT3001_CONVERSION_TIME_100MS u).trace =
        (self.register_read e w t .OPT3001_REGISTER_CONFIG u).trace ++
          configWriteCalls lib self.m_i2c_address v ∧
      v < 65536 ∧ (v >>> 12) % 16 = 0b1100 ∧ (v >>> 11) % 2 = 0 ∧
      (v >>> 9) % 4 = (c >>> 9) % 4 ∧ v % 512 = c % 512 := by
  rw [config_set_eq_config_update] at hok ⊢
  obtain ⟨hr, htr⟩ := config_update_success e w self t _ u lib hb hio hok
  obtain ⟨h1, h2, h3, h4⟩ := config_set_value_100ms_fields
    (self.register_read e w t .OPT3001_REGISTER_CONFIG u).reg_content
  exact ⟨_, _, hr, rfl,
    register_read_bound_lt e w self t _ u lib hb hio hr, htr,
    config_set_value_lt _ _, h1, h2, h3, h4⟩

theorem config_set_100ms_writes_back_witness :
    bound_sample.m_i2c_library = some 7 ∧ 0 < errno_sample.EIO ∧
    (bound_sample.config_set errno_sample (scriptedWire 0 2 [0x3E, 0xA5]) []
      .OPT3001_CONVERSION_TIME_100MS 0).res = 0 ∧
    ∃ c v, (bound_sample.register_read errno_sample (scriptedWire 0 2 [0x3E, 0xA5]) []
        .OPT3001_REGISTER_CONFIG 0).res = 0 ∧
      (bound_sample.register_read errno_sample (scriptedWire 0 2 [0x3E, 0xA5]) []
        .OPT3001_REGISTER_CONFIG 0).reg_content = c ∧ c < 65536 ∧
      (bound_sample.config_set errno_sample (scriptedWire 0 2 [0x3E, 0xA5]) []
        .OPT3001_CONVERSION_TIME_100MS 0).trace =
        (bound_sample.register_read errno_sample (scriptedWire 0 2 [0x3E, 0xA5]) []
          .OPT3001_REGISTER_CONFIG 0).trace ++
          configWriteCalls 7 bound_sample.m_i2c_address v ∧
      v < 65536 ∧ (v >>> 12) % 16 = 0b1100 ∧ (v >>> 11) % 2 = 0 ∧
      (v >>> 9) % 4 = (c >>> 9) % 4 ∧ v % 512 = c % 512 :=
  ⟨rfl, by decide, by decide,
    config_set_100ms_writes_back errno_sample (scriptedWire 0 2 [0x3E, 0xA5]) bound_sample []
      0 7 rfl (by decide) (by decide)⟩

/-- C3: on a bound driver (`EIO` being positive), when `conversion_continuous_enable`,
`conversion_continuous_disable` or `conversion_singleshot_trigger` succeeds, its read of
CONFIG succeeded with a 16-bit word `c`, and the calls that follow the read are one write
to CONFIG of a 16-bit word `v` whose bits 10..9 are `11`, `00` or `01` respectively and
whose every other bit is the corresponding bit of `c`. -/
theorem conversion_mode_writes_back (e : Errno) (w : TwoWire) (self : opt3001)
    (t : List WireEvent) (u lib : Nat)
    (hb : self.m_i2c_library = some lib) (hio : 0 < e.EIO) :
    ((self.conversion_continuous_enable e w t u).res = 0 →
      ∃ c v, (self.register_read e w t .OPT3001_REGISTER_CONFIG u).res = 0 ∧
        (self.register_read e w t .OPT3001_REGISTER_CONFIG u).reg_content = c ∧ c < 65536 ∧
        (self.conversion_continuous_enable e w t u).trace =
          (self.register_read e w t .OPT3001_REGISTER_CONFIG u).trace ++
            configWriteCalls lib self.m_i2c_address v ∧
        v < 65536 ∧ (v >>> 9) % 4 = 0b11 ∧
        ∀ i, i ≠ 9 → i ≠ 10 → v.testBit i = c.testBit i) ∧
    ((self.conversion_continuous_disable e w t u).res = 0 →
      ∃ c v, (self.register_read e w t .OPT3001_REGISTER_CONFIG u).res = 0 ∧
        (self.register_read e w t .OPT3001_REGISTER_CONFIG u).reg_content = c ∧ c < 65536 ∧
        (self.conversion_continuous_disable e w t u).trace =
          (self.register_read e w t .OPT3001_REGISTER_CONFIG u).trace ++
            configWriteCalls lib self.m_i2c_address v ∧
        v < 65536 ∧ (v >>> 9) % 4 = 0b00 ∧
        ∀ i, i ≠ 9 → i ≠ 10 → v.testBit i = c.testBit i) ∧
    ((self.conversion_singleshot_trigger e w t u).res = 0 →
      ∃ c v, (self.register_read e w t .OPT3001_REGISTER_CONFIG u).res = 0 ∧
        (self.register_read e w t .OPT3001_REGISTER_CONFIG u).reg_content = c ∧ c < 65536 ∧
        (self.conversion_singleshot_trigger e w t u).trace =
          (self.register_read e w t .OPT3001_REGISTER_CONFIG u).trace ++
            configWriteCalls lib self.m_i2c_address v ∧
        v < 65536 ∧ (v >>> 9) % 4 = 0b01 ∧
        ∀ i, i ≠ 9 → i ≠ 10 → v.testBit i = c.testBit i) := by
  refine ⟨?_, ?_, ?_⟩
  · intro hok
    rw [continuous_enable_eq_config_update] at hok ⊢
    obtain ⟨hr, htr⟩ := config_update_success e w self t _ u lib hb hio hok
    have hc := register_read_bound_lt e w self t _ u lib hb hio hr
    refine ⟨_, _, hr, rfl, hc, htr, continuous_enable_value_lt _, ?_, ?_⟩
    · rw [continuous_enable_value_eq, mode_value_field _ _ (Or.inl rfl)]
      decide
    · intro i h9 h10
      rw [continuous_enable_value_eq]
      exact mode_value_other_bits _ _ (Or.inl rfl) hc i h9 h10
  · intro hok
    rw [continuous_disable_eq_config_update] at hok ⊢
    obtain ⟨hr, htr⟩ := config_update_success e w self t _ u lib hb hio hok
    have hc := register_read_bound_lt e w self t _ u lib hb hio hr
    refine ⟨_, _, hr, rfl, hc, htr, continuous_disable_value_lt _, ?_, ?_⟩
    · rw [continuous_disable_value_eq, mode_value_field _ _ (Or.inr (Or.inl rfl))]
      decide
    · intro i h9 h10
      rw [continuous_disable_value_eq]
      exact mode_value_other_bits _ _ (Or.inr (Or.inl rfl)) hc i h9 h10
  · intro hok
    rw [singleshot_trigger_eq_config_update] at hok ⊢
    obtain ⟨hr, htr⟩ := config_update_success e w self t _ u lib hb hio hok
    have hc := register_read_bound_lt e w self t _ u lib hb hio hr
    refine ⟨_, _, hr, rfl, hc, htr, singleshot_trigger_value_lt _, ?_, ?_⟩
    · rw [singleshot_trigger_value_eq, mode_value_field _ _ (Or.inr (Or.inr rfl))]
      decide
    · intro i h9 h10
      rw [singleshot_trigger_value_eq]
      exact mode_value_other_bits _ _ (Or.inr (Or.inr rfl)) hc i h9 h10

theorem conversion_mode_writes_back_witness :
    bound_sample.m_i2c_library = some 7 ∧ 0 < errno_sample.EIO ∧
    ((bound_sample.conversion_continuous_enable errno_sample (scriptedWire 0 2 [0x3E, 0xA5]) [] 0).res = 0 ∧
      ∃ c v, (bound_sample.register_read errno_sample (scriptedWire 0 2 [0x3E, 0xA5]) []
          .OPT3001_REGISTER_CONFIG 0).res = 0 ∧
        (bound_sample.register_read errno_sample (scriptedWire 0 2 [0x3E, 0xA5]) []
          .OPT3001_REGISTER_CONFIG 0).reg_content = c ∧ c < 65536 ∧
        (bound_sample.conversion_continuous_enable errno_sample (scriptedWire 0 2 [0x3E, 0xA5]) [] 0).trace =
          (bound_sample.register_read errno_sample (scriptedWire 0 2 [0x3E, 0xA5]) []
            .OPT3001_REGISTER_CONFIG 0).trace ++
            configWriteCalls 7 bound_sample.m_i2c_address v ∧
        v < 65536 ∧ (v >>> 9) % 4 = 0b11 ∧
        ∀ i, i ≠ 9 → i ≠ 10 → v.testBit i = c.testBit i) ∧
    ((bound_sample.conversion_continuous_disable errno_sample (scriptedWire 0 2 [0x3E, 0xA5]) [] 0).res = 0 ∧
      ∃ c v, (bound_sample.register_read errno_sample (scriptedWire 0 2 [0x3E, 0xA5]) []
          .OPT3001_REGISTER_CONFIG 0).res = 0 ∧
        (bound_sample.register_read errno_sample (scriptedWire 0 2 [0x3E, 0xA5]) []
          .OPT3001_REGISTER_CONFIG 0).reg_content = c ∧ c < 65536 ∧
        (bound_sample.conversion_continuous_disable errno_sample (scriptedWire 0 2 [0x3E, 0xA5]) [] 0).trace =
          (bound_sample.register_read errno_sample (scriptedWire 0 2 [0x3E, 0xA5]) []
            .OPT3001_REGISTER_CONFIG 0).trace ++
            configWriteCalls 7 bound_sample.m_i2c_address v ∧
        v < 65536 ∧ (v >>> 9) % 4 = 0b00 ∧
        ∀ i, i ≠ 9 → i ≠ 10 → v.testBit i = c.testBit i) ∧
    ((bound_sample.conversion_singleshot_trigger errno_sample (scriptedWire 0 2 [0x3E, 0xA5]) [] 0).res = 0 ∧
      ∃ c v, (bound_sample.register_read errno_sample (scriptedWire 0 2 [0x3E, 0xA5]) []
          .OPT3001_REGISTER_CONFIG 0).res = 0 ∧
        (bound_sample.register_read errno_sample (scriptedWire 0 2 [0x3E, 0xA5]) []
          .OPT3001_REGISTER_CONFIG 0).reg_content = c ∧ c < 65536 ∧
        (bound_sample.conversion_singleshot_trigger errno_sample (scriptedWire 0 2 [0x3E, 0xA5]) [] 0).trace =
          (bound_sample.register_read errno_sample (scriptedWire 0 2 [0x3E, 0xA5]) []
            .OPT3001_REGISTER_CONFIG 0).trace ++
            configWriteCalls 7 bound_sample.m_i2c_address v ∧
        v < 65536 ∧ (v >>> 9) % 4 = 0b01 ∧
        ∀ i, i ≠ 9 → i ≠ 10 → v.testBit i = c.testBit i) :=
  ⟨rfl, by decide,
    ⟨by decide, (conversion_mode_writes_back errno_sample (scriptedWire 0 2 [0x3E, 0xA5])
      bound_sample [] 0 7 rfl (by decide)).1 (by decide)⟩,
    ⟨by decide, (conversion_mode_writes_back errno_sample (scriptedWire 0 2 [0x3E, 0xA5])
      bound_sample [] 0 7 rfl (by decide)).2.1 (by decide)⟩,
    ⟨by decide, (conversion_mode_writes_back errno_sample (scriptedWire 0 2 [0x3E, 0xA5])
      bound_sample [] 0 7 rfl (by decide)).2.2 (by decide)⟩⟩

/-- The address test of `setup` accepts exactly the four addresses `0x44` to `0x47` among
the 8-bit values. -/
theorem setup_address_check :
    ∀ a, a < 256 →
      ((a &&& 0b11111100) = 0b01000100 ↔ (a = 0x44 ∨ a = 0x45 ∨ a = 0x46 ∨ a = 0x47)) := by
  intro a ha
  interval_cases a <;> decide

/-- On a bound driver whose address phase is accepted and to which data is available,
`register_read` makes its two `read` calls and combines their values. -/
theorem register_read_bound_success (e : Errno) (w : TwoWire) (self : opt3001)
    (t : List WireEvent) (reg_address : opt3001_register) (u lib : Nat)
    (hb : self.m_i2c_library = some lib) (hio : 0 < e.EIO)
    (hok : (self.register_read e w t reg_address u).res = 0) :
    self.register_read e w t reg_address u =
      ⟨0,
        u16 (u16 (toU16 (w.read (t ++ readRequestCalls lib self.m_i2c_address reg_address ++
              [⟨lib, .read⟩])) <<< 8) |||
          toU16 (w.read (t ++ readRequestCalls lib self.m_i2c_address reg_address ++
              [⟨lib, .read⟩, ⟨lib, .read⟩]))),
        t ++ readRequestCalls lib self.m_i2c_address reg_address ++
          [⟨lib, .read⟩, ⟨lib, .read⟩]⟩ := by
  simp only [opt3001.register_read, hb, wireCall, readRequestCalls, List.append_assoc,
    List.cons_append, List.nil_append] at hok ⊢
  split_ifs at hok ⊢
  · simp at hok; omega
  · simp at hok; omega
  · rfl

/-- C5: on a bound driver, with a positive `EIO`, `detect` returns 0 exactly when the read
of MANUFACTURER_ID succeeds with `0x5449` and the read of DEVICE_ID that follows succeeds
with `0x3001`; it returns `-EIO` when the read that stops it failed and `-1` when that read
succeeded with another value; and `-1` is neither `-EIO` nor `-EINVAL` when these error
numbers are not 1. -/
theorem detect_result (e : Errno) (w : TwoWire) (self : opt3001) (t : List WireEvent)
    (lib : Nat) (hb : self.m_i2c_library = some lib) (hio : 0 < e.EIO)
    (hio1 : e.EIO ≠ 1) (hinval1 : e.EINVAL ≠ 1) :
    ((self.detect e w t).res = 0 ↔
      ((self.register_read e w t .OPT3001_REGISTER_MANUID 0).res = 0 ∧
        (self.register_read e w t .OPT3001_REGISTER_MANUID 0).reg_content = 0x5449 ∧
        (self.register_read e w (self.register_read e w t .OPT3001_REGISTER_MANUID 0).trace
          .OPT3001_REGISTER_DEVIID 0).res = 0 ∧
        (self.register_read e w (self.register_read e w t .OPT3001_REGISTER_MANUID 0).trace
          .OPT3001_REGISTER_DEVIID 0).reg_content = 0x3001)) ∧
    ((self.register_read e w t .OPT3001_REGISTER_MANUID 0).res ≠ 0 →
      (self.detect e w t).res = -e.EIO) ∧
    ((self.register_read e w t .OPT3001_REGISTER_MANUID 0).res = 0 →
      (self.register_read e w t .OPT3001_REGISTER_MANUID 0).reg_content ≠ 0x5449 →
      (self.detect e w t).res = -1) ∧
    ((self.register_read e w t .OPT3001_REGISTER_MANUID 0).res = 0 →
      (self.register_read e w t .OPT3001_REGISTER_MANUID 0).reg_content = 0x5449 →
      (self.register_read e w (self.register_read e w t .OPT3001_REGISTER_MANUID 0).trace
          .OPT3001_REGISTER_DEVIID 0).res ≠ 0 →
      (self.detect e w t).res = -e.EIO) ∧
    ((self.register_read e w t .OPT3001_REGISTER_MANUID 0).res = 0 →
      (self.register_read e w t .OPT3001_REGISTER_MANUID 0).reg_content = 0x5449 →
      (self.register_read e w (self.register_read e w t .OPT3001_REGISTER_MANUID 0).trace
          .OPT3001_REGISTER_DEVIID 0).res = 0 →
      (self.register_read e w (self.register_read e w t .OPT3001_REGISTER_MANUID 0).trace
          .OPT3001_REGISTER_DEVIID 0).reg_content ≠ 0x3001 →
      (self.detect e w t).res = -1) ∧
    (-1 : Int) ≠ -e.EIO ∧ (-1 : Int) ≠ -e.EINVAL := by
  have hn1 := register_read_bound_neg_iff e w self t .OPT3001_REGISTER_MANUID 0 lib hb hio
  have hn2 := register_read_bound_neg_iff e w self
    (self.register_read e w t .OPT3001_REGISTER_MANUID 0).trace
    .OPT3001_REGISTER_DEVIID 0 lib hb hio
  simp only [opt3001.detect]
  refine ⟨?_, ?_, ?_, ?_, ?_, by omega, by omega⟩
  · split_ifs with h1 h2 h3 h4
    · have := hn1.mp h1
      simp only [neg_eq_zero]
      constructor
      · intro h; omega
      · intro h; exact absurd h.1 this
    · constructor
      · intro h; simp at h
      · intro h; exact absurd h.2.1 h2
    · have := hn2.mp h3
      simp only [neg_eq_zero]
      constructor
      · intro h; omega
      · intro h; exact absurd h.2.2.1 this
    · constructor
      · intro h; simp at h
      · intro h; exact absurd h.2.2.2 h4
    · have e1 : (self.register_read e w t .OPT3001_REGISTER_MANUID 0).res = 0 :=
        by_contra fun h => h1 (hn1.mpr h)
      have e3 : (self.register_read e w
          (self.register_read e w t .OPT3001_REGISTER_MANUID 0).trace
          .OPT3001_REGISTER_DEVIID 0).res = 0 := by_contra fun h => h3 (hn2.mpr h)
      exact ⟨fun _ => ⟨e1, not_not.mp h2, e3, not_not.mp h4⟩, fun _ => rfl⟩
  · intro h
    rw [if_pos (hn1.mpr h)]
  · intro h hv
    rw [if_neg (by rw [h]; decide), if_pos hv]
  · intro h hv h2
    rw [if_neg (by rw [h]; decide), if_neg (not_not.mpr hv), if_pos (hn2.mpr h2)]
  · intro h hv h2 hv2
    rw [if_neg (by rw [h]; decide), if_neg (not_not.mpr hv), if_neg (by rw [h2]; decide),
      if_pos hv2]

theorem detect_result_witness :
    bound_sample.m_i2c_library = some 7 ∧ 0 < errno_sample.EIO ∧ errno_sample.EIO ≠ 1 ∧
    errno_sample.EINVAL ≠ 1 ∧
    (bound_sample.detect errno_sample (scriptedWire 0 2 [0x54, 0x49, 0x30, 0x01]) []).res = 0 ∧
    (bound_sample.detect errno_sample (scriptedWire 0 2 [0x54, 0x49, 0x30, 0x02]) []).res = -1 ∧
    (bound_sample.detect errno_sample (scriptedWire 0 0 []) []).res = -errno_sample.EIO :=
  ⟨rfl, by decide, by decide, by decide,
    (detect_result errno_sample (scriptedWire 0 2 [0x54, 0x49, 0x30, 0x01]) bound_sample [] 7
      rfl (by decide) (by decide) (by decide)).1.mpr (by decide),
    (detect_result errno_sample (scriptedWire 0 2 [0x54, 0x49, 0x30, 0x02]) bound_sample [] 7
      rfl (by decide) (by decide) (by decide)).2.2.2.2.1
        (by decide) (by decide) (by decide) (by decide),
    (detect_result errno_sample (scriptedWire 0 0 []) bound_sample [] 7
      rfl (by decide) (by decide) (by decide)).2.1 (by decide)⟩

/-- C6: for every 8-bit address other than `0x44`, `0x45`, `0x46` and `0x47`, `setup`
returns `-EINVAL` and leaves both data members of the driver, bound or not, and the trace
of bus calls as they were. -/
theorem setup_rejects_invalid_address (e : Errno) (self : opt3001) (t : List WireEvent)
    (i2c_library a : Nat) (ha : a < 256)
    (hn : a ≠ 0x44 ∧ a ≠ 0x45 ∧ a ≠ 0x46 ∧ a ≠ 0x47) :
    (self.setup e t i2c_library a).res = -e.EINVAL ∧
    (self.setup e t i2c_library a).self = self ∧
    (self.setup e t i2c_library a).trace = t := by
  have hne : (a &&& 0b11111100) ≠ 0b01000100 := by
    intro h
    rcases (setup_address_check a ha).mp h with h | h | h | h
    · exact hn.1 h
    · exact hn.2.1 h
    · exact hn.2.2.1 h
    · exact hn.2.2.2 h
  simp only [opt3001.setup, if_pos hne, and_self]

theorem setup_rejects_invalid_address_witness :
    ((0x48 : Nat) < 256 ∧
      ((0x48 : Nat) ≠ 0x44 ∧ (0x48 : Nat) ≠ 0x45 ∧ (0x48 : Nat) ≠ 0x46 ∧ (0x48 : Nat) ≠ 0x47) ∧
      (opt3001.setup errno_sample ⟨none, 0⟩ [] 7 0x48).res = -errno_sample.EINVAL ∧
      (opt3001.setup errno_sample ⟨none, 0⟩ [] 7 0x48).self = ⟨none, 0⟩ ∧
      (opt3001.setup errno_sample ⟨none, 0⟩ [] 7 0x48).trace = []) ∧
    ((0xC4 : Nat) < 256 ∧
      ((0xC4 : Nat) ≠ 0x44 ∧ (0xC4 : Nat) ≠ 0x45 ∧ (0xC4 : Nat) ≠ 0x46 ∧ (0xC4 : Nat) ≠ 0x47) ∧
      (bound_sample.setup errno_sample [] 9 0xC4).res = -errno_sample.EINVAL ∧
      (bound_sample.setup errno_sample [] 9 0xC4).self = bound_sample ∧
      (bound_sample.setup errno_sample [] 9 0xC4).trace = []) :=
  ⟨⟨by decide, by decide,
      setup_rejects_invalid_address errno_sample ⟨none, 0⟩ [] 7 0x48 (by decide) (by decide)⟩,
    ⟨by decide, by decide,
      setup_rejects_invalid_address errno_sample bound_sample [] 9 0xC4 (by decide)
        (by decide)⟩⟩

/-- C7: for each of the addresses `0x44`, `0x45`, `0x46` and `0x47`, `setup` returns 0,
stores the bus object and the address, and makes no bus call; afterwards `register_read`
and `register_write` return 0 or `-EIO`, which is not `-EINVAL` when `EINVAL` is neither 0
nor `EIO`. -/
theorem setup_accepts_valid_address (e : Errno) (self : opt3001) (t : List WireEvent)
    (i2c_library a : Nat) (ha : a = 0x44 ∨ a = 0x45 ∨ a = 0x46 ∨ a = 0x47)
    (hinval : e.EINVAL ≠ 0) (hne : e.EIO ≠ e.EINVAL) :
    (self.setup e t i2c_library a).res = 0 ∧
    (self.setup e t i2c_library a).self = ⟨some i2c_library, a⟩ ∧
    (self.setup e t i2c_library a).trace = t ∧
    ∀ (w : TwoWire) (t' : List WireEvent) (reg_address : opt3001_register) (v : Nat),
      (((self.setup e t i2c_library a).self.register_read e w t' reg_address v).res = 0 ∨
        ((self.setup e t i2c_library a).self.register_read e w t' reg_address v).res
          = -e.EIO) ∧
      ((self.setup e t i2c_library a).self.register_read e w t' reg_address v).res
        ≠ -e.EINVAL ∧
      (((self.setup e t i2c_library a).self.register_write e w t' reg_address v).res = 0 ∨
        ((self.setup e t i2c_library a).self.register_write e w t' reg_address v).res
          = -e.EIO) ∧
      ((self.setup e t i2c_library a).self.register_write e w t' reg_address v).res
        ≠ -e.EINVAL := by
  have hlt : a < 256 := by rcases ha with h | h | h | h <;> omega
  have heq : (a &&& 0b11111100) = 0b01000100 := (setup_address_check a hlt).mpr ha
  have hs : self.setup e t i2c_library a = ⟨0, ⟨some i2c_library, a⟩, t⟩ := by
    simp only [opt3001.setup, heq, ne_eq, not_true_eq_false, if_false]
  rw [hs]
  refine ⟨rfl, rfl, rfl, ?_⟩
  intro w t' reg_address v
  have hr := register_read_bound_res e w ⟨some i2c_library, a⟩ t' reg_address v
    i2c_library rfl
  have hw : (opt3001.register_write e w ⟨some i2c_library, a⟩ t' reg_address v).res = 0 ∨
      (opt3001.register_write e w ⟨some i2c_library, a⟩ t' reg_address v).res = -e.EIO := by
    rw [register_write_bound e w ⟨some i2c_library, a⟩ t' reg_address v i2c_library rfl]
    simp only
    split_ifs
    · exact Or.inr rfl
    · exact Or.inl rfl
  refine ⟨hr, ?_, hw, ?_⟩
  · rcases hr with h | h <;> rw [h] <;> omega
  · rcases hw with h | h <;> rw [h] <;> omega

theorem setup_accepts_valid_address_witness :
    ((0x45 : Nat) = 0x44 ∨ (0x45 : Nat) = 0x45 ∨ (0x45 : Nat) = 0x46 ∨ (0x45 : Nat) = 0x47) ∧
    errno_sample.EINVAL ≠ 0 ∧ errno_sample.EIO ≠ errno_sample.EINVAL ∧
    (opt3001.setup errno_sample ⟨none, 0⟩ [] 7 0x45).res = 0 ∧
    (opt3001.setup errno_sample ⟨none, 0⟩ [] 7 0x45).self = ⟨some 7, 0x45⟩ ∧
    (opt3001.setup errno_sample ⟨none, 0⟩ [] 7 0x45).trace = [] ∧
    ((opt3001.setup errno_sample ⟨none, 0⟩ [] 7 0x45).self.register_read errno_sample
      (scriptedWire 0 2 [0x12, 0x34]) [] .OPT3001_REGISTER_RESULT 0).res
        ≠ -errno_sample.EINVAL :=
  ⟨by decide, by decide, by decide,
    (setup_accepts_valid_address errno_sample ⟨none, 0⟩ [] 7 0x45 (by decide) (by decide)
      (by decide)).1,
    (setup_accepts_valid_address errno_sample ⟨none, 0⟩ [] 7 0x45 (by decide) (by decide)
      (by decide)).2.1,
    (setup_accepts_valid_address errno_sample ⟨none, 0⟩ [] 7 0x45 (by decide) (by decide)
      (by decide)).2.2.1,
    ((setup_accepts_valid_address errno_sample ⟨none, 0⟩ [] 7 0x45 (by decide) (by decide)
      (by decide)).2.2.2 (scriptedWire 0 2 [0x12, 0x34]) [] .OPT3001_REGISTER_RESULT 0).2.1⟩

/-- C8: on a bound driver (`EIO` being positive), when `register_read` succeeds and the
bus answers its two `read` calls with the bytes `b1` and `b2` (each in 0..255), the value
it outputs is `(b1 << 8) | b2`, the first byte being the most significant one. -/
theorem register_read_big_endian (e : Errno) (w : TwoWire) (self : opt3001)
    (t : List WireEvent) (reg_address : opt3001_register) (u lib b1 b2 : Nat)
    (hb : self.m_i2c_library = some lib) (hio : 0 < e.EIO)
    (h1 : b1 < 256) (h2 : b2 < 256)
    (hr1 : w.read (t ++ readRequestCalls lib self.m_i2c_address reg_address ++
      [⟨lib, .read⟩]) = b1)
    (hr2 : w.read (t ++ readRequestCalls lib self.m_i2c_address reg_address ++
      [⟨lib, .read⟩, ⟨lib, .read⟩]) = b2)
    (hok : (self.register_read e w t reg_address u).res = 0) :
    (self.register_read e w t reg_address u).reg_content = (b1 <<< 8) ||| b2 ∧
    (self.register_read e w t reg_address u).reg_content = b1 * 256 + b2 ∧
    (self.register_read e w t reg_address u).trace =
      t ++ readRequestCalls lib self.m_i2c_address reg_address ++
        [⟨lib, .read⟩, ⟨lib, .read⟩] := by
  rw [register_read_bound_success e w self t reg_address u lib hb hio hok]
  have hs : b1 <<< 8 = 2 ^ 8 * b1 := by rw [Nat.shiftLeft_eq, Nat.mul_comm]
  have hadd : (b1 <<< 8) ||| b2 = b1 * 256 + b2 := by
    rw [hs, ← Nat.mul_add_lt_is_or (show b2 < 2 ^ 8 by omega) b1]
    omega
  have hlt1 : b1 <<< 8 < 65536 := by rw [hs]; omega
  have hor : (b1 <<< 8) ||| b2 < 65536 := by rw [hadd]; omega
  simp only [hr1, hr2, toU16_natCast (show b1 < 65536 by omega),
    toU16_natCast (show b2 < 65536 by omega), u16_of_lt hlt1, u16_of_lt hor, and_true,
    true_and]
  exact hadd

theorem register_read_big_endian_witness :
    bound_sample.m_i2c_library = some 7 ∧ 0 < errno_sample.EIO ∧
    (0xAB : Nat) < 256 ∧ (0xCD : Nat) < 256 ∧
    (bound_sample.register_read errno_sample (scriptedWire 0 2 [0xAB, 0xCD]) []
      .OPT3001_REGISTER_RESULT 0).res = 0 ∧
    (bound_sample.register_read errno_sample (scriptedWire 0 2 [0xAB, 0xCD]) []
      .OPT3001_REGISTER_RESULT 0).reg_content = 0xABCD :=
  ⟨rfl, by decide, by decide, by decide, by decide,
    (register_read_big_endian errno_sample (scriptedWire 0 2 [0xAB, 0xCD]) bound_sample []
      .OPT3001_REGISTER_RESULT 0 7 0xAB 0xCD rfl (by decide) (by decide) (by decide)
      (by decide) (by decide) (by decide)).1⟩

/-- C9: on a bound driver, for every register and every prior content `u` of the output
variable, a `register_read` whose call of `available` is answered with 0 returns `-EIO`
and leaves the output variable at `u`. -/
theorem register_read_none_available (e : Errno) (w : TwoWire) (self : opt3001)
    (t : List WireEvent) (reg_address : opt3001_register) (u lib : Nat)
    (hb : self.m_i2c_library = some lib)
    (hav : w.available (t ++ readRequestCalls lib self.m_i2c_address reg_address) = 0) :
    (self.register_read e w t reg_address u).res = -e.EIO ∧
    (self.register_read e w t reg_address u).reg_content = u := by
  simp only [opt3001.register_read, hb, wireCall, readRequestCalls, List.append_assoc,
    List.cons_append, List.nil_append] at hav ⊢
  split_ifs <;> exact ⟨rfl, rfl⟩

theorem register_read_none_available_witness :
    bound_sample.m_i2c_library = some 7 ∧
    (scriptedWire 0 0 [0x12, 0x34]).available
      ([] ++ readRequestCalls 7 bound_sample.m_i2c_address .OPT3001_REGISTER_CONFIG) = 0 ∧
    (bound_sample.register_read errno_sample (scriptedWire 0 0 [0x12, 0x34]) []
      .OPT3001_REGISTER_CONFIG 0xBEEF).res = -errno_sample.EIO ∧
    (bound_sample.register_read errno_sample (scriptedWire 0 0 [0x12, 0x34]) []
      .OPT3001_REGISTER_CONFIG 0xBEEF).reg_content = 0xBEEF :=
  ⟨rfl, rfl,
    register_read_none_available errno_sample (scriptedWire 0 0 [0x12, 0x34]) bound_sample []
      .OPT3001_REGISTER_CONFIG 0xBEEF 7 rfl rfl⟩

/-- C10: on a bound driver, for every register `r` and every 16-bit content `v`,
`register_write` makes exactly these bus calls: `beginTransmission` with the bound address,
`write` of the register address, of the high byte `v >> 8` and of the low byte `v & 0xFF`,
and `endTransmission(true)`; it returns 0 when the status of that `endTransmission` is 0
and `-EIO` otherwise. -/
theorem register_write_transaction (e : Errno) (w : TwoWire) (self : opt3001)
    (t : List WireEvent) (r : opt3001_register) (v lib : Nat)
    (hb : self.m_i2c_library = some lib) (hv : v < 65536) :
    (self.register_write e w t r v).trace =
      t ++ [⟨lib, .beginTransmission self.m_i2c_address⟩, ⟨lib, .write r.toNat⟩,
        ⟨lib, .write (v >>> 8)⟩, ⟨lib, .write (v &&& 0xFF)⟩, ⟨lib, .endTransmission true⟩] ∧
    (w.endTransmission (t ++ [⟨lib, .beginTransmission self.m_i2c_address⟩,
        ⟨lib, .write r.toNat⟩, ⟨lib, .write (v >>> 8)⟩, ⟨lib, .write (v &&& 0xFF)⟩,
        ⟨lib, .endTransmission true⟩]) = 0 →
      (self.register_write e w t r v).res = 0) ∧
    (w.endTransmission (t ++ [⟨lib, .beginTransmission self.m_i2c_address⟩,
        ⟨lib, .write r.toNat⟩, ⟨lib, .write (v >>> 8)⟩, ⟨lib, .write (v &&& 0xFF)⟩,
        ⟨lib, .endTransmission true⟩]) ≠ 0 →
      (self.register_write e w t r v).res = -e.EIO) := by
  have hhi : (v >>> 8) % 256 = v >>> 8 := by
    rw [Nat.shiftRight_eq_div_pow]
    omega
  have hlo : v % 256 = v &&& 0xFF := (Nat.and_pow_two_sub_one_eq_mod v 8).symm
  rw [register_write_bound e w self t r v lib hb, hhi, hlo]
  refine ⟨rfl, ?_, ?_⟩
  · intro h
    simp only [h, ne_eq, not_true_eq_false, if_false]
  · intro h
    simp only [h, ne_eq, not_false_eq_true, if_true]

theorem register_write_transaction_witness :
    bound_sample.m_i2c_library = some 7 ∧ (0xC235 : Nat) < 65536 ∧
    (bound_sample.register_write errno_sample (scriptedWire 0 2 []) []
      .OPT3001_REGISTER_CONFIG 0xC235).trace =
      [⟨7, .beginTransmission 0x44⟩, ⟨7, .write 0x01⟩, ⟨7, .write 0xC2⟩, ⟨7, .write 0x35⟩,
        ⟨7, .endTransmission true⟩] ∧
    (bound_sample.register_write errno_sample (scriptedWire 0 2 []) []
      .OPT3001_REGISTER_CONFIG 0xC235).res = 0 ∧
    (bound_sample.register_write errno_sample (scriptedWire 2 2 []) []
      .OPT3001_REGISTER_CONFIG 0xC235).res = -errno_sample.EIO :=
  ⟨rfl, by decide,
    (register_write_transaction errno_sample (scriptedWire 0 2 []) bound_sample []
      .OPT3001_REGISTER_CONFIG 0xC235 7 rfl (by decide)).1,
    (register_write_transaction errno_sample (scriptedWire 0 2 []) bound_sample []
      .OPT3001_REGISTER_CONFIG 0xC235 7 rfl (by decide)).2.1 rfl,
    (register_write_transaction errno_sample (scriptedWire 2 2 []) bound_sample []
      .OPT3001_REGISTER_CONFIG 0xC235 7 rfl (by decide)).2.2 (by decide)⟩

/-! ## The operations on an unbound driver -/

/-- On an unbound driver `register_read` returns `-EINVAL` at once. -/
theorem register_read_unbound (e : Errno) (w : TwoWire) (self : opt3001)
    (t : List WireEvent) (reg_address : opt3001_register) (u : Nat)
    (hu : self.m_i2c_library = none) :
    self.register_read e w t reg_address u = ⟨-e.EINVAL, u, t⟩ := by
  simp only [opt3001.register_read, hu]

/-- On an unbound driver `register_write` returns `-EINVAL` at once. -/
theorem register_write_unbound (e : Errno) (w : TwoWire) (self : opt3001)
    (t : List WireEvent) (reg_address : opt3001_register) (v : Nat)
    (hu : self.m_i2c_library = none) :
    self.register_write e w t reg_address v = ⟨-e.EINVAL, t⟩ := by
  simp only [opt3001.register_write, hu]

/-- On an unbound driver a read-modify-write of CONFIG stops after its read and returns
`-EIO`, when `EINVAL` is positive. -/
theorem config_update_unbound (e : Errno) (w : TwoWire) (self : opt3001)
    (t : List WireEvent) (f : Nat → Nat) (u : Nat)
    (hu : self.m_i2c_library = none) (hinval : 0 < e.EINVAL) :
    self.config_update e w t f u = ⟨-e.EIO, t⟩ := by
  have hneg : -e.EINVAL < 0 := by omega
  simp only [opt3001.config_update, register_read_unbound e w self t _ u hu, if_pos hneg]

/-- C11 (counterexample): with `EINVAL = 22` and `EIO = 5`, on an unbound driver `detect`,
`config_set`, the three conversion-mode functions and `lux_read` return `-EIO`, which is
not `-EINVAL`. -/
theorem unbound_wrappers_not_einval :
    (unbound_sample.detect errno_sample (scriptedWire 0 2 []) []).res = -errno_sample.EIO ∧
    (unbound_sample.detect errno_sample (scriptedWire 0 2 []) []).res
      ≠ -errno_sample.EINVAL ∧
    (unbound_sample.config_set errno_sample (scriptedWire 0 2 []) []
      .OPT3001_CONVERSION_TIME_100MS 0).res ≠ -errno_sample.EINVAL ∧
    (unbound_sample.conversion_continuous_enable errno_sample (scriptedWire 0 2 []) [] 0).res
      ≠ -errno_sample.EINVAL ∧
    (unbound_sample.conversion_continuous_disable errno_sample (scriptedWire 0 2 []) [] 0).res
      ≠ -errno_sample.EINVAL ∧
    (unbound_sample.conversion_singleshot_trigger errno_sample (scriptedWire 0 2 []) [] 0).res
      ≠ -errno_sample.EINVAL ∧
    (unbound_sample.lux_read errno_sample (scriptedWire 0 2 []) []
      (fun mantissa exponent => mantissa * 2 ^ exponent) 0).res ≠ -errno_sample.EINVAL := by
  decide

/-- C11 (amended): on an unbound driver, `EINVAL` being positive, `register_read` and
`register_write` return `-EINVAL`, while `detect`, `config_set`, the three conversion-mode
functions and `lux_read` return `-EIO`, as they do for every negative result of
`register_read`. -/
theorem unbound_error_kinds {F : Type} (e : Errno) (w : TwoWire) (self : opt3001)
    (t : List WireEvent) (reg_address : opt3001_register) (v u : Nat)
    (ct : opt3001_conversion_time) (fmul : Nat → Nat → F) (lux : F)
    (hu : self.m_i2c_library = none) (hinval : 0 < e.EINVAL) :
    (self.register_read e w t reg_address u).res = -e.EINVAL ∧
    (self.register_write e w t reg_address v).res = -e.EINVAL ∧
    (self.detect e w t).res = -e.EIO ∧
    (self.config_set e w t ct u).res = -e.EIO ∧
    (self.conversion_continuous_enable e w t u).res = -e.EIO ∧
    (self.conversion_continuous_disable e w t u).res = -e.EIO ∧
    (self.conversion_singleshot_trigger e w t u).res = -e.EIO ∧
    (self.lux_read e w t fmul lux).res = -e.EIO := by
  have hneg : -e.EINVAL < 0 := by omega
  refine ⟨?_, ?_, ?_, ?_, ?_, ?_, ?_, ?_⟩
  · rw [register_read_unbound e w self t _ u hu]
  · rw [register_write_unbound e w self t _ v hu]
  · simp only [opt3001.detect, register_read_unbound e w self t _ _ hu, if_pos hneg]
  · rw [config_set_eq_config_update, config_update_unbound e w self t _ u hu hinval]
  · rw [continuous_enable_eq_config_update, config_update_unbound e w self t _ u hu hinval]
  · rw [continuous_disable_eq_config_update, config_update_unbound e w self t _ u hu hinval]
  · rw [singleshot_trigger_eq_config_update, config_update_unbound e w self t _ u hu hinval]
  · simp only [opt3001.lux_read, register_read_unbound e w self t _ _ hu, if_pos hneg]

theorem unbound_error_kinds_witness :
    unbound_sample.m_i2c_library = none ∧ 0 < errno_sample.EINVAL ∧
    (unbound_sample.register_read errno_sample (scriptedWire 0 2 []) []
      .OPT3001_REGISTER_RESULT 0).res = -errno_sample.EINVAL ∧
    (unbound_sample.register_write errno_sample (scriptedWire 0 2 []) []
      .OPT3001_REGISTER_RESULT 0).res = -errno_sample.EINVAL ∧
    (unbound_sample.detect errno_sample (scriptedWire 0 2 []) []).res = -errno_sample.EIO :=
  ⟨rfl, by decide,
    (unbound_error_kinds errno_sample (scriptedWire 0 2 []) unbound_sample []
      .OPT3001_REGISTER_RESULT 0 0 .OPT3001_CONVERSION_TIME_100MS
      (fun mantissa exponent => mantissa * 2 ^ exponent) 0 rfl (by decide)).1,
    (unbound_error_kinds errno_sample (scriptedWire 0 2 []) unbound_sample []
      .OPT3001_REGISTER_RESULT 0 0 .OPT3001_CONVERSION_TIME_100MS
      (fun mantissa exponent => mantissa * 2 ^ exponent) 0 rfl (by decide)).2.1,
    (unbound_error_kinds errno_sample (scriptedWire 0 2 []) unbound_sample []
      .OPT3001_REGISTER_RESULT 0 0 .OPT3001_CONVERSION_TIME_100MS
      (fun mantissa exponent => mantissa * 2 ^ exponent) 0 rfl (by decide)).2.2.1⟩

/-- C12: on a driver whose `m_i2c_library` is still `NULL`, the error numbers being
positive, none of the eight functions other than `setup` returns 0 and none of them makes a
bus call: the trace after the call is the trace before it. -/
theorem unbound_no_success_no_call {F : Type} (e : Errno) (w : TwoWire) (self : opt3001)
    (t : List WireEvent) (reg_address : opt3001_register) (v u : Nat)
    (ct : opt3001_conversion_time) (fmul : Nat → Nat → F) (lux : F)
    (hu : self.m_i2c_library = none) (hinval : 0 < e.EINVAL) (hio : 0 < e.EIO) :
    ((self.register_read e w t reg_address u).res ≠ 0 ∧
      (self.register_read e w t reg_address u).trace = t) ∧
    ((self.register_write e w t reg_address v).res ≠ 0 ∧
      (self.register_write e w t reg_address v).trace = t) ∧
    ((self.detect e w t).res ≠ 0 ∧ (self.detect e w t).trace = t) ∧
    ((self.config_set e w t ct u).res ≠ 0 ∧ (self.config_set e w t ct u).trace = t) ∧
    ((self.conversion_continuous_enable e w t u).res ≠ 0 ∧
      (self.conversion_continuous_enable e w t u).trace = t) ∧
    ((self.conversion_continuous_disable e w t u).res ≠ 0 ∧
      (self.conversion_continuous_disable e w t u).trace = t) ∧
    ((self.conversion_singleshot_trigger e w t u).res ≠ 0 ∧
      (self.conversion_singleshot_trigger e w t u).trace = t) ∧
    ((self.lux_read e w t fmul lux).res ≠ 0 ∧ (self.lux_read e w t fmul lux).trace = t) := by
  have hneg : -e.EINVAL < 0 := by omega
  have h1 : -e.EINVAL ≠ 0 := by omega
  have h2 : -e.EIO ≠ 0 := by omega
  refine ⟨?_, ?_, ?_, ?_, ?_, ?_, ?_, ?_⟩
  · rw [register_read_unbound e w self t _ u hu]
    exact ⟨h1, rfl⟩
  · rw [register_write_unbound e w self t _ v hu]
    exact ⟨h1, rfl⟩
  · simp only [opt3001.detect, register_read_unbound e w self t _ _ hu, if_pos hneg]
    exact ⟨h2, trivial⟩
  · rw [config_set_eq_config_update, config_update_unbound e w self t _ u hu hinval]
    exact ⟨h2, rfl⟩
  · rw [continuous_enable_eq_config_update, config_update_unbound e w self t _ u hu hinval]
    exact ⟨h2, rfl⟩
  · rw [continuous_disable_eq_config_update, config_update_unbound e w self t _ u hu hinval]
    exact ⟨h2, rfl⟩
  · rw [singleshot_trigger_eq_config_update, config_update_unbound e w self t _ u hu hinval]
    exact ⟨h2, rfl⟩
  · simp only [opt3001.lux_read, register_read_unbound e w self t _ _ hu, if_pos hneg]
    exact ⟨h2, trivial⟩

theorem unbound_no_success_no_call_witness :
    unbound_sample.m_i2c_library = none ∧ 0 < errno_sample.EINVAL ∧ 0 < errno_sample.EIO ∧
    ((unbound_sample.detect errno_sample (scriptedWire 0 2 [0x54, 0x49, 0x30, 0x01]) []).res
        ≠ 0 ∧
      (unbound_sample.detect errno_sample (scriptedWire 0 2 [0x54, 0x49, 0x30, 0x01]) []).trace
        = []) :=
  ⟨rfl, by decide, by decide,
    (unbound_no_success_no_call errno_sample (scriptedWire 0 2 [0x54, 0x49, 0x30, 0x01])
      unbound_sample [] .OPT3001_REGISTER_RESULT 0 0 .OPT3001_CONVERSION_TIME_100MS
      (fun mantissa exponent => mantissa * 2 ^ exponent) 0 rfl (by decide)
      (by decide)).2.2.1⟩

/-! ## Status of the read-modify-write functions -/

/-- The values that `register_read` returns. -/
theorem register_read_res_cases (e : Errno) (w : TwoWire) (self : opt3001)
    (t : List WireEvent) (reg_address : opt3001_register) (u : Nat) :
    (self.register_read e w t reg_address u).res = 0 ∨
      (self.register_read e w t reg_address u).res = -e.EIO ∨
      (self.register_read e w t reg_address u).res = -e.EINVAL := by
  cases hl : self.m_i2c_library with
  | none => rw [register_read_unbound e w self t _ u hl]; exact Or.inr (Or.inr rfl)
  | some lib =>
    rcases register_read_bound_res e w self t reg_address u lib hl with h | h
    · exact Or.inl h
    · exact Or.inr (Or.inl h)

/-- The values that `register_write` returns. -/
theorem register_write_res_cases (e : Errno) (w : TwoWire) (self : opt3001)
    (t : List WireEvent) (reg_address : opt3001_register) (v : Nat) :
    (self.register_write e w t reg_address v).res = 0 ∨
      (self.register_write e w t reg_address v).res = -e.EIO ∨
      (self.register_write e w t reg_address v).res = -e.EINVAL := by
  cases hl : self.m_i2c_library with
  | none => rw [register_write_unbound e w self t _ v hl]; exact Or.inr (Or.inr rfl)
  | some lib =>
    rw [register_write_bound e w self t reg_address v lib hl]
    simp only
    split_ifs
    · exact Or.inr (Or.inl rfl)
    · exact Or.inl rfl

/-- With positive error numbers, a result of `register_read` is negative exactly when it
is not 0. -/
theorem register_read_neg_iff (e : Errno) (w : TwoWire) (self : opt3001)
    (t : List WireEvent) (reg_address : opt3001_register) (u : Nat)
    (hio : 0 < e.EIO) (hinval : 0 < e.EINVAL) :
    (self.register_read e w t reg_address u).res < 0 ↔
      (self.register_read e w t reg_address u).res ≠ 0 := by
  rcases register_read_res_cases e w self t reg_address u with h | h | h <;> rw [h] <;>
    constructor <;> intro h' <;> omega

/-- With positive error numbers, a result of `register_write` is negative exactly when it
is not 0. -/
theorem register_write_neg_iff (e : Errno) (w : TwoWire) (self : opt3001)
    (t : List WireEvent) (reg_address : opt3001_register) (v : Nat)
    (hio : 0 < e.EIO) (hinval : 0 < e.EINVAL) :
    (self.register_write e w t reg_address v).res < 0 ↔
      (self.register_write e w t reg_address v).res ≠ 0 := by
  rcases register_write_res_cases e w self t reg_address v with h | h | h <;> rw [h] <;>
    constructor <;> intro h' <;> omega

/-- The status rule holds of the read-modify-write body. -/
theorem config_update_status (e : Errno) (w : TwoWire) (self : opt3001)
    (t : List WireEvent) (f : Nat → Nat) (u : Nat)
    (hio : 0 < e.EIO) (hinval : 0 < e.EINVAL) :
    ReadWriteStatus e w self t u f (self.config_update e w t f u) := by
  have hr := register_read_neg_iff e w self t .OPT3001_REGISTER_CONFIG u hio hinval
  have hw := register_write_neg_iff e w self
    (self.register_read e w t .OPT3001_REGISTER_CONFIG u).trace .OPT3001_REGISTER_CONFIG
    (f (self.register_read e w t .OPT3001_REGISTER_CONFIG u).reg_content) hio hinval
  have hne : -e.EIO ≠ 0 := by omega
  simp only [ReadWriteStatus, opt3001.config_update]
  by_cases h1 : (self.register_read e w t .OPT3001_REGISTER_CONFIG u).res < 0
  · simp only [if_pos h1]
    exact ⟨⟨fun h => absurd h hne, fun h => absurd h.1 (hr.mp h1)⟩, fun _ => trivial,
      fun h => absurd h (hr.mp h1)⟩
  · have h1' : (self.register_read e w t .OPT3001_REGISTER_CONFIG u).res = 0 :=
      by_contra fun h => h1 (hr.mpr h)
    simp only [if_neg h1]
    by_cases h2 : (self.register_write e w
        (self.register_read e w t .OPT3001_REGISTER_CONFIG u).trace .OPT3001_REGISTER_CONFIG
        (f (self.register_read e w t .OPT3001_REGISTER_CONFIG u).reg_content)).res < 0
    · simp only [if_pos h2]
      exact ⟨⟨fun h => absurd h hne, fun h => absurd h.2 (hw.mp h2)⟩,
        fun h => absurd h1' h, fun _ _ => trivial⟩
    · have h2' : (self.register_write e w
          (self.register_read e w t .OPT3001_REGISTER_CONFIG u).trace
          .OPT3001_REGISTER_CONFIG
          (f (self.register_read e w t .OPT3001_REGISTER_CONFIG u).reg_content)).res = 0 :=
        by_contra fun h => h2 (hw.mpr h)
      simp only [if_neg h2]
      exact ⟨⟨fun _ => ⟨h1', h2'⟩, fun _ => trivial⟩, fun h => absurd h1' h,
        fun _ h => absurd h2' h⟩

/-- C13: with positive error numbers, each of `config_set`, `conversion_continuous_enable`,
`conversion_continuous_disable` and `conversion_singleshot_trigger` returns 0 exactly when
its read of CONFIG and its write of CONFIG both return 0, and returns `-EIO` when the read
does not return 0 or the write does not. -/
theorem config_functions_status (e : Errno) (w : TwoWire) (self : opt3001)
    (t : List WireEvent) (ct : opt3001_conversion_time) (u : Nat)
    (hio : 0 < e.EIO) (hinval : 0 < e.EINVAL) :
    ReadWriteStatus e w self t u (config_set_value ct) (self.config_set e w t ct u) ∧
    ReadWriteStatus e w self t u continuous_enable_value
      (self.conversion_continuous_enable e w t u) ∧
    ReadWriteStatus e w self t u continuous_disable_value
      (self.conversion_continuous_disable e w t u) ∧
    ReadWriteStatus e w self t u singleshot_trigger_value
      (self.conversion_singleshot_trigger e w t u) :=
  ⟨config_update_status e w self t _ u hio hinval,
    config_update_status e w self t _ u hio hinval,
    config_update_status e w self t _ u hio hinval,
    config_update_status e w self t _ u hio hinval⟩

theorem config_functions_status_witness :
    0 < errno_sample.EIO ∧ 0 < errno_sample.EINVAL ∧
    (bound_sample.config_set errno_sample (scriptedWire 0 2 [0x3E, 0xA5]) []
      .OPT3001_CONVERSION_TIME_100MS 0).res = 0 ∧
    (bound_sample.conversion_singleshot_trigger errno_sample (scriptedWire 0 0 []) [] 0).res
      = -errno_sample.EIO ∧
    (unbound_sample.conversion_continuous_enable errno_sample (scriptedWire 0 2 []) [] 0).res
      = -errno_sample.EIO :=
  ⟨by decide, by decide,
    (config_functions_status errno_sample (scriptedWire 0 2 [0x3E, 0xA5]) bound_sample []
      .OPT3001_CONVERSION_TIME_100MS 0 (by decide) (by decide)).1.1.mpr
        ⟨by decide, by decide⟩,
    (config_functions_status errno_sample (scriptedWire 0 0 []) bound_sample []
      .OPT3001_CONVERSION_TIME_100MS 0 (by decide) (by decide)).2.2.2.2.1 (by decide),
    (config_functions_status errno_sample (scriptedWire 0 2 []) unbound_sample []
      .OPT3001_CONVERSION_TIME_100MS 0 (by decide) (by decide)).2.1.2.1 (by decide)⟩

/-! ## The bus calls of `register_read` and of `detect` -/

/-- On a bound driver the calls that `register_read` adds to the trace are its address
phase, or its calls up to `available`, or its complete sequence. -/
theorem register_read_trace_cases (e : Errno) (w : TwoWire) (self : opt3001)
    (t : List WireEvent) (reg_address : opt3001_register) (u lib : Nat)
    (hb : self.m_i2c_library = some lib) :
    (self.register_read e w t reg_address u).trace =
        t ++ readAddressCalls lib self.m_i2c_address reg_address ∨
      (self.register_read e w t reg_address u).trace =
        t ++ readRequestCalls lib self.m_i2c_address reg_address ∨
      (self.register_read e w t reg_address u).trace =
        t ++ readCalls lib self.m_i2c_address reg_address := by
  simp only [opt3001.register_read, hb, wireCall, readAddressCalls, readRequestCalls,
    readCalls, List.append_assoc, List.cons_append, List.nil_append]
  split_ifs
  · exact Or.inl rfl
  · exact Or.inr (Or.inl rfl)
  · exact Or.inr (Or.inr rfl)

/-- The three sequences of calls that a `register_read` can make are beginnings of its
complete sequence, hold no `endTransmission(true)`, and leave every register of the chip
as it is. -/
theorem read_calls_harmless (lib addr : Nat) (reg_address : opt3001_register)
    (s : List WireEvent)
    (hs : s = readAddressCalls lib addr reg_address ∨
      s = readRequestCalls lib addr reg_address ∨ s = readCalls lib addr reg_address) :
    s <+: readCalls lib addr reg_address ∧
    (∀ ev ∈ s, ev.call ≠ .endTransmission true) ∧
    ∀ c : Chip, (Chip.run c s).regs = c.regs := by
  rcases hs with rfl | rfl | rfl
  · refine ⟨⟨[⟨lib, .requestFrom addr 2 1⟩, ⟨lib, .available⟩, ⟨lib, .read⟩,
      ⟨lib, .read⟩], rfl⟩, ?_, ?_⟩
    · intro ev hev
      simp only [readAddressCalls, List.mem_cons, List.not_mem_nil, or_false] at hev
      rcases hev with rfl | rfl | rfl <;> simp
    · intro c
      simp [Chip.run, readAddressCalls, Chip.step]
  · refine ⟨⟨[⟨lib, .read⟩, ⟨lib, .read⟩], rfl⟩, ?_, ?_⟩
    · intro ev hev
      simp only [readRequestCalls, List.mem_cons, List.not_mem_nil, or_false] at hev
      rcases hev with rfl | rfl | rfl | rfl | rfl <;> simp
    · intro c
      simp [Chip.run, readRequestCalls, Chip.step]
  · refine ⟨List.prefix_refl _, ?_, ?_⟩
    · intro ev hev
      simp only [readCalls, readRequestCalls, List.cons_append, List.nil_append,
        List.mem_cons, List.not_mem_nil, or_false] at hev
      rcases hev with rfl | rfl | rfl | rfl | rfl | rfl | rfl <;> simp
    · intro c
      simp [Chip.run, readCalls, readRequestCalls, Chip.step]

/-- The trace after `detect` is the trace after its first `register_read` or the trace
after its second one. -/
theorem detect_trace_cases (e : Errno) (w : TwoWire) (self : opt3001) (t : List WireEvent) :
    (self.detect e w t).trace = (self.register_read e w t .OPT3001_REGISTER_MANUID 0).trace ∨
    (self.detect e w t).trace =
      (self.register_read e w (self.register_read e w t .OPT3001_REGISTER_MANUID 0).trace
        .OPT3001_REGISTER_DEVIID 0).trace := by
  simp only [opt3001.detect]
  split_ifs
  · exact Or.inl rfl
  · exact Or.inl rfl
  · exact Or.inr rfl
  · exact Or.inr rfl
  · exact Or.inr rfl

/-- The chip after two sequences of calls is the chip after the second, started from the
chip after the first. -/
theorem Chip.run_append (c : Chip) (s1 s2 : List WireEvent) :
    Chip.run c (s1 ++ s2) = Chip.run (Chip.run c s1) s2 := by
  simp only [Chip.run, List.foldl_append]

/-- C14: for every driver, bus and prior trace, the calls that `detect` adds to the trace
are `s1` followed by `s2`, where on an unbound driver both are empty and on a bound driver
`s1` is a beginning of the read of MANUFACTURER_ID (`0x7E`) and `s2` a beginning of the read
of DEVICE_ID (`0x7F`); none of these calls is the `endTransmission(true)` that ends a
register write, and they leave every register of the chip with the content it had. -/
theorem detect_no_chip_side_effect (e : Errno) (w : TwoWire) (self : opt3001)
    (t : List WireEvent) :
    ∃ s1 s2, (self.detect e w t).trace = t ++ (s1 ++ s2) ∧
      (self.m_i2c_library = none → s1 = [] ∧ s2 = []) ∧
      (∀ lib, self.m_i2c_library = some lib →
        s1 <+: readCalls lib self.m_i2c_address .OPT3001_REGISTER_MANUID ∧
        s2 <+: readCalls lib self.m_i2c_address .OPT3001_REGISTER_DEVIID) ∧
      opt3001_register.OPT3001_REGISTER_MANUID.toNat = 0x7E ∧
      opt3001_register.OPT3001_REGISTER_DEVIID.toNat = 0x7F ∧
      (∀ ev ∈ s1 ++ s2, ev.call ≠ .endTransmission true) ∧
      ∀ c : Chip, (Chip.run c (s1 ++ s2)).regs = c.regs := by
  cases hl : self.m_i2c_library with
  | none =>
    refine ⟨[], [], ?_, fun _ => ⟨rfl, rfl⟩, fun lib h => by simp at h, rfl, rfl,
      fun ev hev => by simp at hev, fun c => rfl⟩
    rcases detect_trace_cases e w self t with h | h
    · rw [h, register_read_unbound e w self t _ _ hl]
      simp
    · rw [h, register_read_unbound e w self t _ _ hl,
        register_read_unbound e w self t _ _ hl]
      simp
  | some lib =>
    have h1 := register_read_trace_cases e w self t .OPT3001_REGISTER_MANUID 0 lib hl
    have h2 := register_read_trace_cases e w self
      (self.register_read e w t .OPT3001_REGISTER_MANUID 0).trace
      .OPT3001_REGISTER_DEVIID 0 lib hl
    have hs1 : ∃ s1, (self.register_read e w t .OPT3001_REGISTER_MANUID 0).trace = t ++ s1 ∧
        (s1 = readAddressCalls lib self.m_i2c_address .OPT3001_REGISTER_MANUID ∨
          s1 = readRequestCalls lib self.m_i2c_address .OPT3001_REGISTER_MANUID ∨
          s1 = readCalls lib self.m_i2c_address .OPT3001_REGISTER_MANUID) := by
      rcases h1 with h | h | h
      · exact ⟨_, h, Or.inl rfl⟩
      · exact ⟨_, h, Or.inr (Or.inl rfl)⟩
      · exact ⟨_, h, Or.inr (Or.inr rfl)⟩
    obtain ⟨s1, ht1, hshape1⟩ := hs1
    obtain ⟨hp1, hm1, hc1⟩ := read_calls_harmless lib self.m_i2c_address _ s1 hshape1
    rcases detect_trace_cases e w self t with h | h
    · refine ⟨s1, [], ?_, fun hn => by simp at hn, ?_, rfl, rfl, ?_, ?_⟩
      · rw [h, ht1, List.append_nil]
      · intro lib' hl'
        obtain rfl : lib = lib' := by simpa using hl'
        exact ⟨hp1, List.nil_prefix⟩
      · intro ev hev
        rw [List.append_nil] at hev
        exact hm1 ev hev
      · intro c
        rw [List.append_nil]
        exact hc1 c
    · have hs2 : ∃ s2, (self.register_read e w
          (self.register_read e w t .OPT3001_REGISTER_MANUID 0).trace
          .OPT3001_REGISTER_DEVIID 0).trace
            = (self.register_read e w t .OPT3001_REGISTER_MANUID 0).trace ++ s2 ∧
          (s2 = readAddressCalls lib self.m_i2c_address .OPT3001_REGISTER_DEVIID ∨
            s2 = readRequestCalls lib self.m_i2c_address .OPT3001_REGISTER_DEVIID ∨
            s2 = readCalls lib self.m_i2c_address .OPT3001_REGISTER_DEVIID) := by
        rcases h2 with h' | h' | h'
        · exact ⟨_, h', Or.inl rfl⟩
        · exact ⟨_, h', Or.inr (Or.inl rfl)⟩
        · exact ⟨_, h', Or.inr (Or.inr rfl)⟩
      obtain ⟨s2, ht2, hshape2⟩ := hs2
      obtain ⟨hp2, hm2, hc2⟩ := read_calls_harmless lib self.m_i2c_address _ s2 hshape2
      refine ⟨s1, s2, ?_, fun hn => by simp at hn, ?_, rfl, rfl, ?_, ?_⟩
      · rw [h, ht2, ht1, List.append_assoc]
      · intro lib' hl'
        obtain rfl : lib = lib' := by simpa using hl'
        exact ⟨hp1, hp2⟩
      · intro ev hev
        rcases List.mem_append.mp hev with hev | hev
        · exact hm1 ev hev
        · exact hm2 ev hev
      · intro c
        rw [Chip.run_append, hc2, hc1]

/-! ## The initial content of the output variable -/

/-- The status and the bus calls of `register_read` do not depend on the prior content of
the output variable. -/
theorem register_read_res_trace_indep (e : Errno) (w : TwoWire) (self : opt3001)
    (t : List WireEvent) (reg_address : opt3001_register) (u u' : Nat) :
    (self.register_read e w t reg_address u).res
        = (self.register_read e w t reg_address u').res ∧
      (self.register_read e w t reg_address u).trace
        = (self.register_read e w t reg_address u').trace := by
  cases hl : self.m_i2c_library with
  | none =>
    rw [register_read_unbound e w self t _ u hl, register_read_unbound e w self t _ u' hl]
    exact ⟨rfl, rfl⟩
  | some lib =>
    simp only [opt3001.register_read, hl]
    split_ifs <;> exact ⟨rfl, rfl⟩

/-- A `register_read` that returns 0 has the same outcome for every prior content of the
output variable, the error numbers being positive. -/
theorem register_read_success_indep (e : Errno) (w : TwoWire) (self : opt3001)
    (t : List WireEvent) (reg_address : opt3001_register) (u u' : Nat)
    (hio : 0 < e.EIO) (hinval : 0 < e.EINVAL)
    (hok : (self.register_read e w t reg_address u).res = 0) :
    self.register_read e w t reg_address u = self.register_read e w t reg_address u' := by
  have hok' : (self.register_read e w t reg_address u').res = 0 := by
    rw [← (register_read_res_trace_indep e w self t reg_address u u').1]
    exact hok
  cases hl : self.m_i2c_library with
  | none =>
    rw [register_read_unbound e w self t _ u hl] at hok
    simp only at hok
    omega
  | some lib =>
    rw [register_read_bound_success e w self t reg_address u lib hl hio hok,
      register_read_bound_success e w self t reg_address u' lib hl hio hok']

/-- The read of CONFIG guards the write in the read-modify-write body. -/
theorem config_update_guard (e : Errno) (w : TwoWire) (self : opt3001)
    (t : List WireEvent) (f : Nat → Nat) (hio : 0 < e.EIO) (hinval : 0 < e.EINVAL) :
    ReadGuardsWrite e w self t (fun u => self.config_update e w t f u) := by
  constructor
  · intro u hne
    have hneg := (register_read_neg_iff e w self t .OPT3001_REGISTER_CONFIG u hio hinval).mpr
      hne
    simp only [opt3001.config_update, if_pos hneg]
  · intro u u'
    have hind := register_read_res_trace_indep e w self t .OPT3001_REGISTER_CONFIG u u'
    by_cases hneg : (self.register_read e w t .OPT3001_REGISTER_CONFIG u).res < 0
    · have hneg' : (self.register_read e w t .OPT3001_REGISTER_CONFIG u').res < 0 := by
        rw [← hind.1]
        exact hneg
      simp only [opt3001.config_update, if_pos hneg, if_pos hneg', hind.2]
    · have hok : (self.register_read e w t .OPT3001_REGISTER_CONFIG u).res = 0 :=
        by_contra fun h =>
          hneg ((register_read_neg_iff e w self t _ u hio hinval).mpr h)
      simp only [opt3001.config_update,
        register_read_success_indep e w self t _ u u' hio hinval hok]

/-- C15: with positive error numbers, in `config_set` and in each of the three
conversion-mode functions, when the read of CONFIG does not return 0 the function makes no
bus call after those of the read, so no write transaction; and the outcome of the function,
the bytes it writes included, is the same for every initial content of the local variable
`reg_config`. -/
theorem config_functions_read_guards_write (e : Errno) (w : TwoWire) (self : opt3001)
    (t : List WireEvent) (ct : opt3001_conversion_time)
    (hio : 0 < e.EIO) (hinval : 0 < e.EINVAL) :
    ReadGuardsWrite e w self t (fun u => self.config_set e w t ct u) ∧
    ReadGuardsWrite e w self t (fun u => self.conversion_continuous_enable e w t u) ∧
    ReadGuardsWrite e w self t (fun u => self.conversion_continuous_disable e w t u) ∧
    ReadGuardsWrite e w self t (fun u => self.conversion_singleshot_trigger e w t u) :=
  ⟨config_update_guard e w self t _ hio hinval, config_update_guard e w self t _ hio hinval,
    config_update_guard e w self t _ hio hinval, config_update_guard e w self t _ hio hinval⟩

theorem config_functions_read_guards_write_witness :
    0 < errno_sample.EIO ∧ 0 < errno_sample.EINVAL ∧
    (bound_sample.register_read errno_sample (scriptedWire 0 0 []) []
      .OPT3001_REGISTER_CONFIG 0xBEEF).res ≠ 0 ∧
    (bound_sample.config_set errno_sample (scriptedWire 0 0 []) []
      .OPT3001_CONVERSION_TIME_800MS 0xBEEF).trace =
      (bound_sample.register_read errno_sample (scriptedWire 0 0 []) []
        .OPT3001_REGISTER_CONFIG 0xBEEF).trace ∧
    bound_sample.conversion_continuous_enable errno_sample (scriptedWire 0 2 [0x3E, 0xA5]) []
        0xBEEF =
      bound_sample.conversion_continuous_enable errno_sample (scriptedWire 0 2 [0x3E, 0xA5]) []
        0x0000 :=
  ⟨by decide, by decide, by decide,
    (config_functions_read_guards_write errno_sample (scriptedWire 0 0 []) bound_sample []
      .OPT3001_CONVERSION_TIME_800MS (by decide) (by decide)).1.1 0xBEEF (by decide),
    (config_functions_read_guards_write errno_sample (scriptedWire 0 2 [0x3E, 0xA5])
      bound_sample [] .OPT3001_CONVERSION_TIME_800MS (by decide) (by decide)).2.1.2
        0xBEEF 0x0000⟩

/-! ## Available bytes, and algebra of the CONFIG transformations -/

/-- C16: on a bound driver whose address phase is accepted (`endTransmission` returns 0),
`register_read` returns 0 for every non-zero answer of `available`, a count of 1 included,
after making both of its `read` calls. -/
theorem register_read_any_nonzero_available (e : Errno) (w : TwoWire) (self : opt3001)
    (t : List WireEvent) (reg_address : opt3001_register) (u lib : Nat)
    (hb : self.m_i2c_library = some lib)
    (hst : w.endTransmission (t ++ readAddressCalls lib self.m_i2c_address reg_address) = 0)
    (hav : w.available (t ++ readRequestCalls lib self.m_i2c_address reg_address) ≠ 0) :
    (self.register_read e w t reg_address u).res = 0 ∧
    (self.register_read e w t reg_address u).trace =
      t ++ readCalls lib self.m_i2c_address reg_address := by
  simp only [opt3001.register_read, hb, wireCall, readAddressCalls, readRequestCalls,
    readCalls, List.append_assoc, List.cons_append, List.nil_append] at hst hav ⊢
  rw [if_neg (not_not.mpr hst), if_neg hav]
  exact ⟨rfl, rfl⟩

theorem register_read_any_nonzero_available_witness :
    bound_sample.m_i2c_library = some 7 ∧
    (scriptedWire 0 1 [0x12]).endTransmission
      ([] ++ readAddressCalls 7 bound_sample.m_i2c_address .OPT3001_REGISTER_RESULT) = 0 ∧
    (scriptedWire 0 1 [0x12]).available
      ([] ++ readRequestCalls 7 bound_sample.m_i2c_address .OPT3001_REGISTER_RESULT) = 1 ∧
    (bound_sample.register_read errno_sample (scriptedWire 0 1 [0x12]) []
      .OPT3001_REGISTER_RESULT 0).reg_content = 0xFFFF ∧
    ((bound_sample.register_read errno_sample (scriptedWire 0 1 [0x12]) []
      .OPT3001_REGISTER_RESULT 0).res = 0 ∧
    (bound_sample.register_read errno_sample (scriptedWire 0 1 [0x12]) []
      .OPT3001_REGISTER_RESULT 0).trace =
      [] ++ readCalls 7 bound_sample.m_i2c_address .OPT3001_REGISTER_RESULT) :=
  ⟨rfl, rfl, rfl, by decide,
    register_read_any_nonzero_available errno_sample (scriptedWire 0 1 [0x12]) bound_sample []
      .OPT3001_REGISTER_RESULT 0 7 rfl rfl (by decide)⟩

/-- C17: for every two conversion-mode functions `f` and `g` and every word `c`, the
statements of `g` applied to the result of those of `f` give what they give applied to `c`
itself; in particular applying `f` twice gives what applying it once gives. -/
theorem mode_ops_last_writer_wins (f g : ModeOp) (c : Nat) :
    g.value (f.value c) = g.value c ∧ f.value (f.value c) = f.value c := by
  have key : ∀ (f g : ModeOp), g.value (f.value c) = g.value c := by
    intro f g
    apply Nat.eq_of_testBit_eq
    intro i
    cases f <;> cases g <;>
      simp only [ModeOp.value, continuous_enable_value_eq, continuous_disable_value_eq,
        singleshot_trigger_value_eq, mode_value_testBit] <;>
      by_cases hi : i < 16 <;>
      first
        | (interval_cases i <;> (generalize c.testBit _ = b; cases b <;> decide))
        | simp [hi]
  exact ⟨key f g, key f f⟩

/-- C18: for every word `c`, conversion time `ct` and conversion-mode function `m`, the
statements of `config_set` applied after those of `m` give the same word as the statements
of `m` applied after those of `config_set`. -/
theorem config_set_commutes_with_mode (ct : opt3001_conversion_time) (m : ModeOp)
    (c : Nat) :
    m.value (config_set_value ct c) = config_set_value ct (m.value c) := by
  apply Nat.eq_of_testBit_eq
  intro i
  cases ct <;> cases m <;>
    simp only [ModeOp.value, continuous_enable_value_eq, continuous_disable_value_eq,
      singleshot_trigger_value_eq, mode_value_testBit, config_set_value_testBit] <;>
    by_cases hi : i < 16 <;>
    first
      | (interval_cases i <;> (generalize c.testBit _ = b; cases b <;> decide))
      | simp [hi]

/-- The decoding of `register_read` applied to the high byte and the low byte of a 16-bit
word gives the word back. -/
theorem decode_high_low (v : Nat) (hv : v < 65536) :
    u16 (u16 (toU16 (((v >>> 8) % 256 : Nat) : Int) <<< 8) |||
      toU16 ((v % 256 : Nat) : Int)) = v := by
  have hhi : (v >>> 8) % 256 = v / 256 := by
    rw [Nat.shiftRight_eq_div_pow]
    omega
  have hs : (v / 256) <<< 8 = 2 ^ 8 * (v / 256) := by rw [Nat.shiftLeft_eq, Nat.mul_comm]
  have hor : (v / 256) <<< 8 ||| v % 256 = v := by
    rw [hs, ← Nat.mul_add_lt_is_or (show v % 256 < 2 ^ 8 by omega) (v / 256)]
    omega
  have hlt : (v / 256) <<< 8 < 65536 := by rw [hs]; omega
  rw [hhi, toU16_natCast (show v / 256 < 65536 by omega),
    toU16_natCast (show v % 256 < 65536 by omega), u16_of_lt hlt, hor, u16_of_lt hv]

/-- C19: for every 16-bit word `v`, the content bytes that `register_write` puts on the bus
are `(v >> 8) % 256` and then `v % 256`, and a successful `register_read` on a bound driver
(`EIO` being positive) whose two `read` calls are answered with these two bytes in this
order outputs `v`. -/
theorem write_read_round_trip (e : Errno) (w : TwoWire) (self : opt3001)
    (t : List WireEvent) (reg_address : opt3001_register) (u lib v : Nat)
    (hb : self.m_i2c_library = some lib) (hio : 0 < e.EIO) (hv : v < 65536)
    (hr1 : w.read (t ++ readRequestCalls lib self.m_i2c_address reg_address ++
      [⟨lib, .read⟩]) = (((v >>> 8) % 256 : Nat) : Int))
    (hr2 : w.read (t ++ readRequestCalls lib self.m_i2c_address reg_address ++
      [⟨lib, .read⟩, ⟨lib, .read⟩]) = ((v % 256 : Nat) : Int))
    (hok : (self.register_read e w t reg_address u).res = 0) :
    (∀ (w0 : TwoWire) (t0 : List WireEvent) (r : opt3001_register),
      (self.register_write e w0 t0 r v).trace =
        t0 ++ [⟨lib, .beginTransmission self.m_i2c_address⟩, ⟨lib, .write r.toNat⟩,
          ⟨lib, .write ((v >>> 8) % 256)⟩, ⟨lib, .write (v % 256)⟩,
          ⟨lib, .endTransmission true⟩]) ∧
    (self.register_read e w t reg_address u).reg_content = v := by
  constructor
  · intro w0 t0 r
    rw [register_write_bound e w0 self t0 r v lib hb]
  · rw [register_read_bound_success e w self t reg_address u lib hb hio hok]
    simp only [hr1, hr2]
    exact decode_high_low v hv

theorem write_read_round_trip_witness :
    bound_sample.m_i2c_library = some 7 ∧ 0 < errno_sample.EIO ∧ (0xC235 : Nat) < 65536 ∧
    (bound_sample.register_write errno_sample (scriptedWire 0 2 []) []
      .OPT3001_REGISTER_LIMITL 0xC235).trace =
      [⟨7, .beginTransmission 0x44⟩, ⟨7, .write 0x02⟩, ⟨7, .write 0xC2⟩, ⟨7, .write 0x35⟩,
        ⟨7, .endTransmission true⟩] ∧
    (bound_sample.register_read errno_sample (scriptedWire 0 2 [0xC2, 0x35]) []
      .OPT3001_REGISTER_LIMITL 0).res = 0 ∧
    (bound_sample.register_read errno_sample (scriptedWire 0 2 [0xC2, 0x35]) []
      .OPT3001_REGISTER_LIMITL 0).reg_content = 0xC235 :=
  ⟨rfl, by decide, by decide,
    (write_read_round_trip errno_sample (scriptedWire 0 2 [0xC2, 0x35]) bound_sample []
      .OPT3001_REGISTER_LIMITL 0 7 0xC235 rfl (by decide) (by decide) (by decide) (by decide)
      (by decide)).1 (scriptedWire 0 2 []) [] .OPT3001_REGISTER_LIMITL,
    by decide,
    (write_read_round_trip errno_sample (scriptedWire 0 2 [0xC2, 0x35]) bound_sample []
      .OPT3001_REGISTER_LIMITL 0 7 0xC235 rfl (by decide) (by decide) (by decide) (by decide)
      (by decide)).2⟩
